import Mathlib

/-!
Verification development for the camera subsystem (arcade/camera.py).

The Python module defines three camera classes, BaseCamera, Camera and
AdvanceCamera, over the pyglet numeric primitives Vec2, Vec3 and Mat4.
We embed the three classes shallowly: each class becomes a structure, each
method a function on that structure, floats become real numbers, and every
operation that can raise a Python exception (ZeroDivisionError from a
division, NotImplementedError from Camera.zoom) returns an Except value.
pyglet matrices are 4 by 4 real matrices; pyglet composes them with the
standard mathematical product acting on column vectors, stores the
translation part in the last column, and inverts with the exact
adjugate-over-determinant formula, which on every non-error path of the
camera code (the divisions performed just before each inversion force the
determinant to be nonzero) agrees with the Mathlib matrix inverse used here.
-/

set_option maxHeartbeats 1000000

open scoped Classical

noncomputable section

namespace ArcadeCamera

/-- pyglet Vec2: a pair of floats. -/
structure Vec2 where
  x : ℝ
  y : ℝ

/-- pyglet Vec2 addition (componentwise). -/
def Vec2.add (a b : Vec2) : Vec2 := ⟨a.x + b.x, a.y + b.y⟩

instance : Add Vec2 := ⟨Vec2.add⟩

/-- pyglet Vec2 subtraction (componentwise). -/
def Vec2.sub (a b : Vec2) : Vec2 := ⟨a.x - b.x, a.y - b.y⟩

instance : Sub Vec2 := ⟨Vec2.sub⟩

/-- pyglet Vec2 multiplication with a Vec2 argument (componentwise). -/
def Vec2.mul (a b : Vec2) : Vec2 := ⟨a.x * b.x, a.y * b.y⟩

instance : Mul Vec2 := ⟨Vec2.mul⟩

/-- pyglet Vec2.lerp: self plus alpha times (other minus self), per component. -/
def Vec2.lerp (a b : Vec2) (alpha : ℝ) : Vec2 :=
  ⟨a.x + alpha * (b.x - a.x), a.y + alpha * (b.y - a.y)⟩

/-- pyglet Vec3: a triple of floats. -/
structure Vec3 where
  x : ℝ
  y : ℝ
  z : ℝ

/-- Negation of a Vec3 (pyglet unary minus, componentwise). -/
def Vec3.neg (v : Vec3) : Vec3 := ⟨-v.x, -v.y, -v.z⟩

/-- Python math.radians: degrees times pi over 180. -/
def radians (deg : ℝ) : ℝ := deg * Real.pi / 180

/-- Python math.atan2(y, x): the angle of the point (x, y), by the C library
case analysis.  The camera code calls math.atan2(ox, oy), so at the call
sites below the first argument is the x component of the offset. -/
def atan2 (y x : ℝ) : ℝ :=
  if 0 < x then Real.arctan (y / x)
  else if x < 0 ∧ 0 ≤ y then Real.arctan (y / x) + Real.pi
  else if x < 0 ∧ y < 0 then Real.arctan (y / x) - Real.pi
  else if x = 0 ∧ 0 < y then Real.pi / 2
  else if x = 0 ∧ y < 0 then -(Real.pi / 2)
  else 0

/-- Modelled from the spec: arcade.get_distance is imported by camera.py but
its source file is not part of the excerpt; the spec describes the two uses
as the magnitudes of the offset and velocity vectors, so it is the Euclidean
distance between the two points. -/
def get_distance (x1 y1 x2 y2 : ℝ) : ℝ :=
  Real.sqrt ((x2 - x1) ^ 2 + (y2 - y1) ^ 2)

/-- Python exception classes that camera operations can raise, plus the two
error classes named by the spec's error taxonomy.  The classes invalidViewport
and invalidZoom are modelled from the spec only: no such exception classes
exist anywhere in the code, and no camera operation below ever produces them;
they are included so that the spec's claims about them can be stated. -/
inductive CameraError where
  | zeroDivisionError : CameraError
  | notImplementedError : CameraError
  | invalidViewport : CameraError
  | invalidZoom : CameraError

/-- A viewport rectangle (left, bottom, width, height). -/
structure ViewportRect where
  left : ℝ
  bottom : ℝ
  width : ℝ
  height : ℝ

/-- A projection rectangle (left, right, bottom, top). -/
structure ProjRect where
  left : ℝ
  right : ℝ
  bottom : ℝ
  top : ℝ

/-- pyglet Mat4, stored here as a mathematical 4 by 4 real matrix
(pyglet keeps the sixteen floats in column-major order and multiplies with
the standard row-by-column rule, so its product and matrix-vector action
coincide with the Mathlib ones used here). -/
abbrev Mat4 := Matrix (Fin 4) (Fin 4) ℝ

/-- pyglet Mat4.from_translation: identity with the vector in the last column. -/
def Mat4.fromTranslation (v : Vec3) : Mat4 :=
  !![1, 0, 0, v.x;
     0, 1, 0, v.y;
     0, 0, 1, v.z;
     0, 0, 0, 1]

/-- pyglet Mat4().scale(v): the identity matrix with its three diagonal
scale entries multiplied by the components of v. -/
def Mat4.scaleDiag (v : Vec3) : Mat4 :=
  !![v.x, 0, 0, 0;
     0, v.y, 0, 0;
     0, 0, v.z, 0;
     0, 0, 0, 1]

/-- pyglet Mat4.from_rotation specialised to the axis (0, 0, 1), the only
axis the camera code uses: the standard rotation about z by the angle. -/
def Mat4.fromRotationZ (angle : ℝ) : Mat4 :=
  !![Real.cos angle, -Real.sin angle, 0, 0;
     Real.sin angle, Real.cos angle, 0, 0;
     0, 0, 1, 0;
     0, 0, 0, 1]

/-- The entries pyglet Mat4.orthogonal_projection builds once its three
divisions have succeeded. -/
def Mat4.orthoEntries (left right bottom top zNear zFar : ℝ) : Mat4 :=
  !![2 / (right - left), 0, 0, -((right + left) / (right - left));
     0, 2 / (top - bottom), 0, -((top + bottom) / (top - bottom));
     0, 0, -2 / (zFar - zNear), -((zFar + zNear) / (zFar - zNear));
     0, 0, 0, 1]

/-- pyglet Mat4.orthogonal_projection: divides by width, height and depth of
the projection box, raising ZeroDivisionError when one of them is zero. -/
def Mat4.orthogonal_projection (left right bottom top zNear zFar : ℝ) :
    Except CameraError Mat4 :=
  if right - left = 0 ∨ top - bottom = 0 ∨ zFar - zNear = 0 then
    .error .zeroDivisionError
  else
    .ok (Mat4.orthoEntries left right bottom top zNear zFar)

/-! ### BaseCamera (arcade.BaseCamera) -/

/-- State of a BaseCamera object.  The window fields model the window the
camera was created against (used only for defaulting the viewport and
projection rectangles). -/
structure BaseCamera where
  window_width : ℝ
  window_height : ℝ
  viewport : ViewportRect
  projection : ProjRect
  projection_matrix : Mat4
  view_matrix : Mat4
  combined_matrix : Mat4
  position : Vec2
  goal_position : Vec2
  move_speed : ℝ
  moving : Bool

/-- BaseCamera.viewport_width property. -/
def BaseCamera.viewport_width (c : BaseCamera) : ℝ := c.viewport.width

/-- BaseCamera.viewport_height property. -/
def BaseCamera.viewport_height (c : BaseCamera) : ℝ := c.viewport.height

/-- BaseCamera._set_combined_matrix: combined := projection times view. -/
def BaseCamera.set_combined_matrix (c : BaseCamera) : BaseCamera :=
  { c with combined_matrix := c.projection_matrix * c.view_matrix }

/-- BaseCamera._set_projection_matrix: rebuild the projection matrix from the
projection rectangle with fixed near -1 and far 1, then optionally the
combined matrix. -/
def BaseCamera.set_projection_matrix (c : BaseCamera) (update_combined_matrix : Bool) :
    Except CameraError BaseCamera :=
  (Mat4.orthogonal_projection c.projection.left c.projection.right c.projection.bottom
      c.projection.top (-1) 1).map fun m =>
    let c1 := { c with projection_matrix := m }
    if update_combined_matrix then c1.set_combined_matrix else c1

/-- BaseCamera._set_view_matrix: divide the position by the half viewport
extents (ZeroDivisionError when an extent is zero), translate by the result,
invert, then recompute the combined matrix. -/
def BaseCamera.set_view_matrix (c : BaseCamera) : Except CameraError BaseCamera :=
  if c.viewport_width / 2 = 0 ∨ c.viewport_height / 2 = 0 then
    .error .zeroDivisionError
  else
    let rp : Vec3 := ⟨c.position.x / (c.viewport_width / 2),
                      c.position.y / (c.viewport_height / 2), 0⟩
    .ok (({ c with view_matrix := (Mat4.fromTranslation rp)⁻¹ }).set_combined_matrix)

/-- BaseCamera viewport setter: a bare assignment, no matrix is recomputed. -/
def BaseCamera.viewport_set (c : BaseCamera) (v : ViewportRect) : BaseCamera :=
  { c with viewport := v }

/-- BaseCamera projection setter: assign, then rebuild projection and
combined matrices. -/
def BaseCamera.projection_set (c : BaseCamera) (p : ProjRect) :
    Except CameraError BaseCamera :=
  ({ c with projection := p }).set_projection_matrix true

/-- BaseCamera.move_to: set the goal position, speed and the moving flag. -/
def BaseCamera.move_to (c : BaseCamera) (vector : Vec2) (speed : ℝ) : BaseCamera :=
  { c with goal_position := ⟨vector.x, vector.y⟩, move_speed := speed, moving := true }

/-- BaseCamera.move: move_to with speed one. -/
def BaseCamera.move (c : BaseCamera) (vector : Vec2) : BaseCamera :=
  c.move_to vector 1

/-- BaseCamera.update: while moving, lerp the position towards the goal,
clear the moving flag on exact equality, and rebuild the view (and hence
combined) matrix. -/
def BaseCamera.update (c : BaseCamera) : Except CameraError BaseCamera :=
  if c.moving then
    let p := c.position.lerp c.goal_position c.move_speed
    ({ c with position := p,
              moving := if p = c.goal_position then false else c.moving }).set_view_matrix
  else
    .ok c

/-- BaseCamera.use: runs update before publishing the viewport and the
combined matrix of the resulting state to the window context. -/
def BaseCamera.use (c : BaseCamera) : Except CameraError BaseCamera :=
  c.update

/-- BaseCamera.__init__: default the rectangles from the window, then
precompute the projection, view and combined matrices. -/
def BaseCamera.init (window_width window_height : ℝ) (viewport : Option ViewportRect)
    (projection : Option ProjRect) : Except CameraError BaseCamera :=
  let c0 : BaseCamera :=
    { window_width := window_width
      window_height := window_height
      viewport := viewport.getD ⟨0, 0, window_width, window_height⟩
      projection := projection.getD ⟨0, window_width, 0, window_height⟩
      projection_matrix := 1
      view_matrix := 1
      combined_matrix := 1
      position := ⟨0, 0⟩
      goal_position := ⟨0, 0⟩
      move_speed := 1
      moving := false }
  (c0.set_projection_matrix false).bind fun c1 => c1.set_view_matrix

/-! ### Camera (arcade.Camera, the Standard variant) -/

/-- State of a Camera object.  In __init__ the three matrix fields start as
None and set_projection immediately assigns the projection matrix, so the
projection matrix is plain while the view and combined matrices stay
optional: they remain None until the first update() runs. -/
structure Camera where
  window_width : ℝ
  window_height : ℝ
  position : Vec2
  goal_position : Vec2
  rotation : ℝ
  anchor : Option (ℝ × ℝ)
  move_speed : ℝ
  projection_matrix : Mat4
  view_matrix : Option Mat4
  combined_matrix : Option Mat4
  near : ℝ
  far : ℝ
  shake_velocity : Vec2
  shake_offset : Vec2
  shake_speed : ℝ
  shake_damping : ℝ
  scale : ℝ
  viewport_width : ℝ
  viewport_height : ℝ

/-- Camera.set_projection: orthogonal projection over (0, scale times width,
0, scale times height, near, far); only the projection matrix is assigned. -/
def Camera.set_projection (c : Camera) : Except CameraError Camera :=
  (Mat4.orthogonal_projection 0 (c.scale * c.viewport_width) 0
      (c.scale * c.viewport_height) c.near c.far).map fun m =>
    { c with projection_matrix := m }

/-- Camera.resize: assign the new viewport extents and rebuild the
projection matrix; the view and combined matrices are not touched. -/
def Camera.resize (c : Camera) (viewport_width viewport_height : ℝ) :
    Except CameraError Camera :=
  ({ c with viewport_width := viewport_width,
            viewport_height := viewport_height }).set_projection

/-- Camera.update: lerp the position, run the shake step, then rebuild the
view and combined matrices from the new position plus shake offset
(ZeroDivisionError when a scaled half viewport extent is zero).
The shake step zeroes velocity and offset when both magnitudes are under
shake_speed, but the two lines that add the opposite pull into the velocity
and damp it run unconditionally afterwards, exactly as in the source. -/
def Camera.update (c : Camera) : Except CameraError Camera :=
  let p := c.position.lerp c.goal_position c.move_speed
  let off := c.shake_offset + c.shake_velocity
  let vx := c.shake_velocity.x
  let vy := c.shake_velocity.y
  let ox := off.x
  let oy := off.y
  let angle := atan2 ox oy
  let distance := get_distance 0 0 ox oy
  let velocity_mag := get_distance 0 0 vx vy
  let reverse_speed := min c.shake_speed distance
  let opposite_angle := angle + Real.pi
  let opposite_vector : Vec2 :=
    ⟨Real.sin opposite_angle * reverse_speed, Real.cos opposite_angle * reverse_speed⟩
  let snapped : Vec2 × Vec2 :=
    if velocity_mag < c.shake_speed ∧ distance < c.shake_speed then
      (⟨0, 0⟩, ⟨0, 0⟩)
    else
      (c.shake_velocity, off)
  let new_velocity := (snapped.1 + opposite_vector) * (⟨c.shake_damping, c.shake_damping⟩ : Vec2)
  if (c.viewport_width * c.scale) / 2 = 0 ∨ (c.viewport_height * c.scale) / 2 = 0 then
    .error .zeroDivisionError
  else
    let rp : Vec3 := ⟨(p.x + snapped.2.x) / ((c.viewport_width * c.scale) / 2),
                      (p.y + snapped.2.y) / ((c.viewport_height * c.scale) / 2), 0⟩
    let v := (Mat4.fromTranslation rp * Mat4.scaleDiag ⟨c.scale, c.scale, 1⟩)⁻¹
    .ok { c with position := p,
                 shake_velocity := new_velocity,
                 shake_offset := snapped.2,
                 view_matrix := some v,
                 combined_matrix := some (c.projection_matrix * v) }

/-- Camera.shake: accumulate the velocity and set speed and damping. -/
def Camera.shake (c : Camera) (velocity : Vec2) (speed damping : ℝ) : Camera :=
  { c with shake_velocity := c.shake_velocity + velocity,
           shake_speed := speed,
           shake_damping := damping }

/-- Camera.move_to: set the goal position and the speed. -/
def Camera.move_to (c : Camera) (vector : Vec2) (speed : ℝ) : Camera :=
  { c with goal_position := ⟨vector.x, vector.y⟩, move_speed := speed }

/-- Camera.move: move_to with speed one. -/
def Camera.move (c : Camera) (vector : Vec2) : Camera :=
  c.move_to vector 1

/-- Camera rotation setter: a bare assignment. -/
def Camera.rotation_set (c : Camera) (value : ℝ) : Camera :=
  { c with rotation := value }

/-- Camera anchor setter: a bare assignment (tuple components copied). -/
def Camera.anchor_set (c : Camera) (anchor : Option (ℝ × ℝ)) : Camera :=
  { c with anchor := match anchor with
                     | none => none
                     | some a => some (a.1, a.2) }

/-- Camera.zoom: raises NotImplementedError for every argument before
touching any field, so the returned state is the receiver unchanged. -/
def Camera.zoom (c : Camera) (change : ℝ) : Except CameraError Unit × Camera :=
  (.error .notImplementedError, c)

/-- Camera.use: runs update, publishes the viewport and combined matrix, and
computes and publishes the rotation transform
translate(-offset) times rotateZ(radians(rotation)) times translate(offset)
as the window view matrix, where offset is the anchor, defaulting to the
updated position plus the half viewport extents.  The published rotation
transform is returned alongside the post-update state. -/
def Camera.use (c : Camera) : Except CameraError (Camera × Mat4) :=
  c.update.map fun c1 =>
    let rotate := Mat4.fromRotationZ (radians c1.rotation)
    let offset : Vec3 :=
      match c1.anchor with
      | none => ⟨c1.position.x + c1.viewport_width / 2,
                 c1.position.y + c1.viewport_height / 2, 0⟩
      | some a => ⟨a.1, a.2, 0⟩
    (c1, Mat4.fromTranslation offset.neg * rotate * Mat4.fromTranslation offset)

/-- Camera.__init__: zero position and shake state, scale one, near -1 and
far 1, viewport extents defaulting to the window size when a zero (falsy)
value is passed, then set_projection. -/
def Camera.init (window_width window_height viewport_width viewport_height : ℝ) :
    Except CameraError Camera :=
  let c0 : Camera :=
    { window_width := window_width
      window_height := window_height
      position := ⟨0, 0⟩
      goal_position := ⟨0, 0⟩
      rotation := 0
      anchor := none
      move_speed := 1
      projection_matrix := 1
      view_matrix := none
      combined_matrix := none
      near := -1
      far := 1
      shake_velocity := ⟨0, 0⟩
      shake_offset := ⟨0, 0⟩
      shake_speed := 0
      shake_damping := 0
      scale := 1
      viewport_width := if viewport_width = 0 then window_width else viewport_width
      viewport_height := if viewport_height = 0 then window_height else viewport_height }
  c0.set_projection

/-! ### AdvanceCamera (arcade.AdvanceCamera, the Advanced variant) -/

/-- State of an AdvanceCamera object. -/
structure AdvanceCamera where
  window_width : ℝ
  window_height : ℝ
  position : Vec2
  goal_position : Vec2
  move_speed : ℝ
  moving : Bool
  zoom : ℝ
  rotation : ℝ
  anchor : Option (ℝ × ℝ)
  near : ℝ
  far : ℝ
  shake_velocity : Vec2
  shake_offset : Vec2
  shake_speed : ℝ
  shake_damping : ℝ
  shaking : Bool
  viewport : ViewportRect
  projection : ProjRect
  projection_matrix : Mat4
  view_matrix : Mat4
  combined_matrix : Mat4
  rotation_matrix : Mat4

/-- AdvanceCamera.viewport_width property. -/
def AdvanceCamera.viewport_width (c : AdvanceCamera) : ℝ := c.viewport.width

/-- AdvanceCamera.viewport_height property. -/
def AdvanceCamera.viewport_height (c : AdvanceCamera) : ℝ := c.viewport.height

/-- AdvanceCamera._set_combined_matrix: combined := projection times view. -/
def AdvanceCamera.set_combined_matrix (c : AdvanceCamera) : AdvanceCamera :=
  { c with combined_matrix := c.projection_matrix * c.view_matrix }

/-- AdvanceCamera._set_projection_matrix: scale the right and top projection
bounds by the zoom when it differs from one, rebuild the projection matrix,
then optionally the combined matrix. -/
def AdvanceCamera.set_projection_matrix (c : AdvanceCamera) (update_combined_matrix : Bool) :
    Except CameraError AdvanceCamera :=
  let right := if c.zoom ≠ 1 then c.projection.right * c.zoom else c.projection.right
  let top := if c.zoom ≠ 1 then c.projection.top * c.zoom else c.projection.top
  (Mat4.orthogonal_projection c.projection.left right c.projection.bottom top
      c.near c.far).map fun m =>
    let c1 := { c with projection_matrix := m }
    if update_combined_matrix then c1.set_combined_matrix else c1

/-- AdvanceCamera._set_view_matrix: divide position plus shake offset by the
zoomed half viewport extents (ZeroDivisionError when one is zero), translate
by the result composed with the zoom scale, invert, then recompute the
combined matrix. -/
def AdvanceCamera.set_view_matrix (c : AdvanceCamera) : Except CameraError AdvanceCamera :=
  if (c.viewport.width * c.zoom) / 2 = 0 ∨ (c.viewport.height * c.zoom) / 2 = 0 then
    .error .zeroDivisionError
  else
    let rp : Vec3 := ⟨(c.position.x + c.shake_offset.x) / ((c.viewport.width * c.zoom) / 2),
                      (c.position.y + c.shake_offset.y) / ((c.viewport.height * c.zoom) / 2), 0⟩
    .ok (({ c with view_matrix :=
              (Mat4.fromTranslation rp * Mat4.scaleDiag ⟨c.zoom, c.zoom, 1⟩)⁻¹ }).set_combined_matrix)

/-- AdvanceCamera._set_rotation_matrix: rotation about z by the rotation
angle in radians, conjugated by translations by the anchor offset, which
defaults to position plus the half viewport extents. -/
def AdvanceCamera.set_rotation_matrix (c : AdvanceCamera) : AdvanceCamera :=
  let rotate := Mat4.fromRotationZ (radians c.rotation)
  let offset : Vec3 :=
    match c.anchor with
    | none => ⟨c.position.x + c.viewport_width / 2,
               c.position.y + c.viewport_height / 2, 0⟩
    | some a => ⟨a.1, a.2, 0⟩
  { c with rotation_matrix :=
      Mat4.fromTranslation offset.neg * rotate * Mat4.fromTranslation offset }

/-- AdvanceCamera viewport setter: assign (defaulting from the window on a
None argument), then rebuild the view and the rotation matrices. -/
def AdvanceCamera.viewport_set (c : AdvanceCamera) (v : Option ViewportRect) :
    Except CameraError AdvanceCamera :=
  (({ c with viewport := v.getD ⟨0, 0, c.window_width, c.window_height⟩ }).set_view_matrix).map
    AdvanceCamera.set_rotation_matrix

/-- AdvanceCamera projection setter: assign (defaulting from the window on a
None argument), then rebuild the projection and combined matrices. -/
def AdvanceCamera.projection_set (c : AdvanceCamera) (p : Option ProjRect) :
    Except CameraError AdvanceCamera :=
  ({ c with projection := p.getD ⟨0, c.window_width, 0, c.window_height⟩ }).set_projection_matrix
    true

/-- AdvanceCamera zoom setter: assign, rebuild the projection matrix without
the combined matrix, then the view matrix (which rebuilds the combined). -/
def AdvanceCamera.zoom_set (c : AdvanceCamera) (zoom : ℝ) : Except CameraError AdvanceCamera :=
  (({ c with zoom := zoom }).set_projection_matrix false).bind AdvanceCamera.set_view_matrix

/-- AdvanceCamera near setter: assign, then rebuild projection and combined. -/
def AdvanceCamera.near_set (c : AdvanceCamera) (near : ℝ) : Except CameraError AdvanceCamera :=
  ({ c with near := near }).set_projection_matrix true

/-- AdvanceCamera far setter: assign, then rebuild projection and combined. -/
def AdvanceCamera.far_set (c : AdvanceCamera) (far : ℝ) : Except CameraError AdvanceCamera :=
  ({ c with far := far }).set_projection_matrix true

/-- AdvanceCamera rotation setter: assign, then rebuild the rotation matrix. -/
def AdvanceCamera.rotation_set (c : AdvanceCamera) (value : ℝ) : AdvanceCamera :=
  ({ c with rotation := value }).set_rotation_matrix

/-- AdvanceCamera anchor setter: assign (tuple components copied), then
rebuild the rotation matrix. -/
def AdvanceCamera.anchor_set (c : AdvanceCamera) (anchor : Option (ℝ × ℝ)) : AdvanceCamera :=
  ({ c with anchor := match anchor with
                      | none => none
                      | some a => some (a.1, a.2) }).set_rotation_matrix

/-- AdvanceCamera.update: while moving, lerp the position and clear the flag
on exact equality; while shaking, run the shake step (the zeroing branch
also clears the shaking flag, and the add-pull-then-damp lines run
unconditionally afterwards, exactly as in the source); finally rebuild the
view matrix only when the moving or shaking flag is still set. -/
def AdvanceCamera.update (c : AdvanceCamera) : Except CameraError AdvanceCamera :=
  let c1 :=
    if c.moving then
      let p := c.position.lerp c.goal_position c.move_speed
      { c with position := p,
               moving := if p = c.goal_position then false else c.moving }
    else c
  let c2 :=
    if c1.shaking then
      let off := c1.shake_offset + c1.shake_velocity
      let vx := c1.shake_velocity.x
      let vy := c1.shake_velocity.y
      let ox := off.x
      let oy := off.y
      let angle := atan2 ox oy
      let distance := get_distance 0 0 ox oy
      let velocity_mag := get_distance 0 0 vx vy
      let reverse_speed := min c1.shake_speed distance
      let opposite_angle := angle + Real.pi
      let opposite_vector : Vec2 :=
        ⟨Real.sin opposite_angle * reverse_speed, Real.cos opposite_angle * reverse_speed⟩
      let snapped : Vec2 × Vec2 × Bool :=
        if velocity_mag < c1.shake_speed ∧ distance < c1.shake_speed then
          (⟨0, 0⟩, ⟨0, 0⟩, false)
        else
          (c1.shake_velocity, off, c1.shaking)
      let new_velocity :=
        (snapped.1 + opposite_vector) * (⟨c1.shake_damping, c1.shake_damping⟩ : Vec2)
      { c1 with shake_velocity := new_velocity,
                shake_offset := snapped.2.1,
                shaking := snapped.2.2 }
    else c1
  if c2.moving || c2.shaking then c2.set_view_matrix else .ok c2

/-- AdvanceCamera.resize: route through the viewport setter, keeping the old
left and bottom. -/
def AdvanceCamera.resize (c : AdvanceCamera) (viewport_width viewport_height : ℝ) :
    Except CameraError AdvanceCamera :=
  c.viewport_set (some ⟨c.viewport.left, c.viewport.bottom, viewport_width, viewport_height⟩)

/-- AdvanceCamera.shake: accumulate the velocity, set speed and damping, and
raise the shaking flag. -/
def AdvanceCamera.shake (c : AdvanceCamera) (velocity : Vec2) (speed damping : ℝ) :
    AdvanceCamera :=
  { c with shake_velocity := c.shake_velocity + velocity,
           shake_speed := speed,
           shake_damping := damping,
           shaking := true }

/-- AdvanceCamera.move_to: set the goal position, speed and the moving flag. -/
def AdvanceCamera.move_to (c : AdvanceCamera) (vector : Vec2) (speed : ℝ) : AdvanceCamera :=
  { c with goal_position := ⟨vector.x, vector.y⟩, move_speed := speed, moving := true }

/-- AdvanceCamera.move: move_to with speed one. -/
def AdvanceCamera.move (c : AdvanceCamera) (vector : Vec2) : AdvanceCamera :=
  c.move_to vector 1

/-- AdvanceCamera.center: move_to the target vector plus position minus the
half viewport extents. -/
def AdvanceCamera.center (c : AdvanceCamera) (vector : Vec2) (speed : ℝ) : AdvanceCamera :=
  let cen : Vec2 := ⟨c.viewport_width / 2, c.viewport_height / 2⟩
  let target := vector + c.position - cen
  c.move_to target speed

/-- AdvanceCamera.get_map_coordinates: position plus the queried vector. -/
def AdvanceCamera.get_map_coordinates (c : AdvanceCamera) (camera_vector : Vec2) : Vec2 :=
  c.position + camera_vector

/-- What AdvanceCamera.use publishes to the window context. -/
structure AdvUseOutput where
  viewport : ViewportRect
  projection_2d_matrix : Mat4
  view_matrix_2d : Mat4

/-- AdvanceCamera.use: runs update, then publishes the viewport, the cached
combined matrix and the cached rotation matrix of the resulting state. -/
def AdvanceCamera.use (c : AdvanceCamera) :
    Except CameraError (AdvanceCamera × AdvUseOutput) :=
  c.update.map fun c1 =>
    (c1, ⟨c1.viewport, c1.combined_matrix, c1.rotation_matrix⟩)

/-- AdvanceCamera.__init__: default the rectangles from the window, then
precompute the projection, view, combined and rotation matrices. -/
def AdvanceCamera.init (window_width window_height : ℝ) (viewport : Option ViewportRect)
    (projection : Option ProjRect) (zoom rotation : ℝ) (anchor : Option (ℝ × ℝ)) :
    Except CameraError AdvanceCamera :=
  let c0 : AdvanceCamera :=
    { window_width := window_width
      window_height := window_height
      position := ⟨0, 0⟩
      goal_position := ⟨0, 0⟩
      move_speed := 1
      moving := false
      zoom := zoom
      rotation := rotation
      anchor := anchor
      near := -1
      far := 1
      shake_velocity := ⟨0, 0⟩
      shake_offset := ⟨0, 0⟩
      shake_speed := 0
      shake_damping := 0
      shaking := false
      viewport := viewport.getD ⟨0, 0, window_width, window_height⟩
      projection := projection.getD ⟨0, window_width, 0, window_height⟩
      projection_matrix := 1
      view_matrix := 1
      combined_matrix := 1
      rotation_matrix := 1 }
  ((c0.set_projection_matrix false).bind AdvanceCamera.set_view_matrix).map
    AdvanceCamera.set_rotation_matrix

/-! ### Derived matrix values and characterisation lemmas

For each cached matrix we name the value that the corresponding recompute
helper derives from the current fields, and prove an equation lemma showing
that the helper either raises ZeroDivisionError or stores exactly that
value.  A cached matrix is fresh exactly when it equals its derived value. -/

/-- The condition under which BaseCamera._set_view_matrix divides by zero. -/
def BaseCamera.view_bad (c : BaseCamera) : Prop :=
  c.viewport_width / 2 = 0 ∨ c.viewport_height / 2 = 0

/-- The view matrix BaseCamera._set_view_matrix derives from the fields. -/
def BaseCamera.view_value (c : BaseCamera) : Mat4 :=
  (Mat4.fromTranslation ⟨c.position.x / (c.viewport_width / 2),
      c.position.y / (c.viewport_height / 2), 0⟩)⁻¹

/-- The condition under which BaseCamera._set_projection_matrix divides by
zero. -/
def BaseCamera.proj_bad (c : BaseCamera) : Prop :=
  c.projection.right - c.projection.left = 0 ∨
    c.projection.top - c.projection.bottom = 0 ∨ (1 : ℝ) - (-1) = 0

/-- The projection matrix BaseCamera._set_projection_matrix derives. -/
def BaseCamera.proj_value (c : BaseCamera) : Mat4 :=
  Mat4.orthoEntries c.projection.left c.projection.right c.projection.bottom
    c.projection.top (-1) 1

/-- The cached combined matrix agrees with the product of the cached
projection and view matrices. -/
def BaseCamera.combOK (c : BaseCamera) : Prop :=
  c.combined_matrix = c.projection_matrix * c.view_matrix

lemma base_set_view_matrix_eq (c : BaseCamera) :
    c.set_view_matrix =
      if c.view_bad then .error .zeroDivisionError
      else .ok { c with view_matrix := c.view_value,
                        combined_matrix := c.projection_matrix * c.view_value } := by
  unfold BaseCamera.set_view_matrix BaseCamera.view_bad BaseCamera.view_value
  split <;> rfl

lemma base_set_projection_matrix_eq (c : BaseCamera) (b : Bool) :
    c.set_projection_matrix b =
      if c.proj_bad then .error .zeroDivisionError
      else .ok (if b then { c with projection_matrix := c.proj_value,
                                   combined_matrix := c.proj_value * c.view_matrix }
                else { c with projection_matrix := c.proj_value }) := by
  by_cases h : c.proj_bad
  · have h2 : c.projection.right - c.projection.left = 0 ∨
        c.projection.top - c.projection.bottom = 0 ∨ (1 : ℝ) - (-1) = 0 := h
    unfold BaseCamera.set_projection_matrix Mat4.orthogonal_projection
    rw [if_pos h2, if_pos h]
    rfl
  · have h2 : ¬(c.projection.right - c.projection.left = 0 ∨
        c.projection.top - c.projection.bottom = 0 ∨ (1 : ℝ) - (-1) = 0) := h
    unfold BaseCamera.set_projection_matrix Mat4.orthogonal_projection
    rw [if_neg h2, if_neg h]
    cases b <;> rfl

/-- The condition under which AdvanceCamera._set_view_matrix divides by
zero. -/
def AdvanceCamera.view_bad (c : AdvanceCamera) : Prop :=
  (c.viewport.width * c.zoom) / 2 = 0 ∨ (c.viewport.height * c.zoom) / 2 = 0

/-- The view matrix AdvanceCamera._set_view_matrix derives from the fields. -/
def AdvanceCamera.view_value (c : AdvanceCamera) : Mat4 :=
  (Mat4.fromTranslation ⟨(c.position.x + c.shake_offset.x) / ((c.viewport.width * c.zoom) / 2),
      (c.position.y + c.shake_offset.y) / ((c.viewport.height * c.zoom) / 2), 0⟩ *
    Mat4.scaleDiag ⟨c.zoom, c.zoom, 1⟩)⁻¹

/-- The condition under which AdvanceCamera._set_projection_matrix divides
by zero. -/
def AdvanceCamera.proj_bad (c : AdvanceCamera) : Prop :=
  (if c.zoom ≠ 1 then c.projection.right * c.zoom else c.projection.right) -
      c.projection.left = 0 ∨
    (if c.zoom ≠ 1 then c.projection.top * c.zoom else c.projection.top) -
      c.projection.bottom = 0 ∨
    c.far - c.near = 0

/-- The projection matrix AdvanceCamera._set_projection_matrix derives. -/
def AdvanceCamera.proj_value (c : AdvanceCamera) : Mat4 :=
  Mat4.orthoEntries c.projection.left
    (if c.zoom ≠ 1 then c.projection.right * c.zoom else c.projection.right)
    c.projection.bottom
    (if c.zoom ≠ 1 then c.projection.top * c.zoom else c.projection.top)
    c.near c.far

/-- The anchor offset AdvanceCamera._set_rotation_matrix uses. -/
def AdvanceCamera.rot_offset (c : AdvanceCamera) : Vec3 :=
  match c.anchor with
  | none => ⟨c.position.x + c.viewport_width / 2, c.position.y + c.viewport_height / 2, 0⟩
  | some a => ⟨a.1, a.2, 0⟩

/-- The rotation matrix AdvanceCamera._set_rotation_matrix derives. -/
def AdvanceCamera.rot_value (c : AdvanceCamera) : Mat4 :=
  Mat4.fromTranslation c.rot_offset.neg * Mat4.fromRotationZ (radians c.rotation) *
    Mat4.fromTranslation c.rot_offset

/-- The cached combined matrix agrees with the product of the cached
projection and view matrices. -/
def AdvanceCamera.combOK (c : AdvanceCamera) : Prop :=
  c.combined_matrix = c.projection_matrix * c.view_matrix

lemma adv_set_view_matrix_eq (c : AdvanceCamera) :
    c.set_view_matrix =
      if c.view_bad then .error .zeroDivisionError
      else .ok { c with view_matrix := c.view_value,
                        combined_matrix := c.projection_matrix * c.view_value } := by
  unfold AdvanceCamera.set_view_matrix AdvanceCamera.view_bad AdvanceCamera.view_value
  split <;> rfl

lemma adv_set_projection_matrix_eq (c : AdvanceCamera) (b : Bool) :
    c.set_projection_matrix b =
      if c.proj_bad then .error .zeroDivisionError
      else .ok (if b then { c with projection_matrix := c.proj_value,
                                   combined_matrix := c.proj_value * c.view_matrix }
                else { c with projection_matrix := c.proj_value }) := by
  by_cases h : c.proj_bad
  · have h2 : (if c.zoom ≠ 1 then c.projection.right * c.zoom else c.projection.right) -
          c.projection.left = 0 ∨
        (if c.zoom ≠ 1 then c.projection.top * c.zoom else c.projection.top) -
          c.projection.bottom = 0 ∨
        c.far - c.near = 0 := h
    unfold AdvanceCamera.set_projection_matrix Mat4.orthogonal_projection
    dsimp only
    rw [if_pos h2, if_pos h]
    rfl
  · have h2 : ¬((if c.zoom ≠ 1 then c.projection.right * c.zoom else c.projection.right) -
          c.projection.left = 0 ∨
        (if c.zoom ≠ 1 then c.projection.top * c.zoom else c.projection.top) -
          c.projection.bottom = 0 ∨
        c.far - c.near = 0) := h
    unfold AdvanceCamera.set_projection_matrix Mat4.orthogonal_projection
    dsimp only
    rw [if_neg h2, if_neg h]
    cases b <;> rfl

lemma AdvanceCamera.set_rotation_matrix_eq (c : AdvanceCamera) :
    c.set_rotation_matrix = { c with rotation_matrix := c.rot_value } := by
  unfold AdvanceCamera.set_rotation_matrix AdvanceCamera.rot_value AdvanceCamera.rot_offset
  rfl

lemma adv_set_view_matrix_ok {c c2 : AdvanceCamera}
    (h : c.set_view_matrix = .ok c2) :
    c2 = { c with view_matrix := c.view_value,
                  combined_matrix := c.projection_matrix * c.view_value } := by
  rw [adv_set_view_matrix_eq] at h
  split at h
  · exact absurd h (by simp)
  · exact (Except.ok.inj h).symm

lemma base_set_view_matrix_ok {c c2 : BaseCamera}
    (h : c.set_view_matrix = .ok c2) :
    c2 = { c with view_matrix := c.view_value,
                  combined_matrix := c.projection_matrix * c.view_value } := by
  rw [base_set_view_matrix_eq] at h
  split at h
  · exact absurd h (by simp)
  · exact (Except.ok.inj h).symm

/-! ### The combined matrix invariant, operation by operation -/

lemma except_map_ok_elim {α β ε : Type} {f : α → β} {x : Except ε α} {b : β}
    (h : x.map f = .ok b) : ∃ a, x = .ok a ∧ f a = b := by
  cases x with
  | error e => cases h
  | ok a => exact ⟨a, rfl, Except.ok.inj h⟩

lemma except_bind_ok_elim {α β ε : Type} {f : α → Except ε β} {x : Except ε α} {b : β}
    (h : x.bind f = .ok b) : ∃ a, x = .ok a ∧ f a = .ok b := by
  cases x with
  | error e => cases h
  | ok a => exact ⟨a, rfl, h⟩

/-- AdvanceCamera.update is the conditional view rebuild applied to an
intermediate state whose cached matrices are untouched. -/
lemma AdvanceCamera.update_shape (c : AdvanceCamera) :
    ∃ X : AdvanceCamera, X.projection_matrix = c.projection_matrix ∧
      X.view_matrix = c.view_matrix ∧ X.combined_matrix = c.combined_matrix ∧
      X.rotation_matrix = c.rotation_matrix ∧
      c.update = if X.moving || X.shaking then X.set_view_matrix else .ok X := by
  unfold AdvanceCamera.update
  dsimp only
  refine ⟨_, ?_, ?_, ?_, ?_, rfl⟩ <;> (repeat' split) <;> rfl

lemma base_combOK_set_view {c c2 : BaseCamera} (h : c.set_view_matrix = .ok c2) :
    c2.combOK := by
  rw [base_set_view_matrix_ok h]
  rfl

lemma base_combOK_update {c c2 : BaseCamera} (hc : c.combOK) (h : c.update = .ok c2) :
    c2.combOK := by
  unfold BaseCamera.update at h
  split at h
  · exact base_combOK_set_view h
  · obtain rfl := Except.ok.inj h
    exact hc

lemma base_combOK_projection_set {c c2 : BaseCamera} {p : ProjRect}
    (h : c.projection_set p = .ok c2) : c2.combOK := by
  unfold BaseCamera.projection_set at h
  rw [base_set_projection_matrix_eq] at h
  split at h
  · cases h
  · obtain rfl := Except.ok.inj h
    rfl

lemma base_combOK_init {ww wh : ℝ} {vp : Option ViewportRect} {pr : Option ProjRect}
    {c : BaseCamera} (h : BaseCamera.init ww wh vp pr = .ok c) : c.combOK := by
  unfold BaseCamera.init at h
  dsimp only at h
  rw [base_set_projection_matrix_eq] at h
  split at h
  · cases h
  · exact base_combOK_set_view h

lemma adv_combOK_set_view {c c2 : AdvanceCamera} (h : c.set_view_matrix = .ok c2) :
    c2.combOK := by
  rw [adv_set_view_matrix_ok h]
  rfl

lemma adv_combOK_update {c c2 : AdvanceCamera} (hc : c.combOK)
    (h : c.update = .ok c2) : c2.combOK := by
  obtain ⟨X, hp, hv, hcm, _, he⟩ := AdvanceCamera.update_shape c
  rw [he] at h
  split at h
  · exact adv_combOK_set_view h
  · obtain rfl := Except.ok.inj h
    unfold AdvanceCamera.combOK at hc ⊢
    rw [hp, hv, hcm]
    exact hc

lemma adv_combOK_use {c c2 : AdvanceCamera} {out : AdvUseOutput} (hc : c.combOK)
    (h : c.use = .ok (c2, out)) : c2.combOK := by
  unfold AdvanceCamera.use at h
  cases hu : c.update with
  | error e => rw [hu] at h; cases h
  | ok c3 =>
      rw [hu] at h
      obtain ⟨h1, h2⟩ := Prod.mk.injEq .. ▸ Except.ok.inj h
      exact h1 ▸ adv_combOK_update hc hu

lemma AdvanceCamera.combOK_viewport_set {c c2 : AdvanceCamera} {v : Option ViewportRect}
    (h : c.viewport_set v = .ok c2) : c2.combOK := by
  unfold AdvanceCamera.viewport_set at h
  obtain ⟨c3, hv, hrot⟩ := except_map_ok_elim h
  have h3 := adv_combOK_set_view hv
  rw [← hrot, AdvanceCamera.set_rotation_matrix_eq]
  exact h3

lemma adv_combOK_projection_set {c c2 : AdvanceCamera} {p : Option ProjRect}
    (h : c.projection_set p = .ok c2) : c2.combOK := by
  unfold AdvanceCamera.projection_set at h
  rw [adv_set_projection_matrix_eq] at h
  split at h
  · cases h
  · obtain rfl := Except.ok.inj h
    rfl

lemma AdvanceCamera.combOK_near_set {c c2 : AdvanceCamera} {x : ℝ}
    (h : c.near_set x = .ok c2) : c2.combOK := by
  unfold AdvanceCamera.near_set at h
  rw [adv_set_projection_matrix_eq] at h
  split at h
  · cases h
  · obtain rfl := Except.ok.inj h
    rfl

lemma AdvanceCamera.combOK_far_set {c c2 : AdvanceCamera} {x : ℝ}
    (h : c.far_set x = .ok c2) : c2.combOK := by
  unfold AdvanceCamera.far_set at h
  rw [adv_set_projection_matrix_eq] at h
  split at h
  · cases h
  · obtain rfl := Except.ok.inj h
    rfl

lemma AdvanceCamera.combOK_zoom_set {c c2 : AdvanceCamera} {z : ℝ}
    (h : c.zoom_set z = .ok c2) : c2.combOK := by
  unfold AdvanceCamera.zoom_set at h
  rw [adv_set_projection_matrix_eq] at h
  split at h
  · cases h
  · exact adv_combOK_set_view h

lemma adv_combOK_init {ww wh : ℝ} {vp : Option ViewportRect} {pr : Option ProjRect}
    {z r : ℝ} {a : Option (ℝ × ℝ)} {c : AdvanceCamera}
    (h : AdvanceCamera.init ww wh vp pr z r a = .ok c) : c.combOK := by
  unfold AdvanceCamera.init at h
  dsimp only at h
  obtain ⟨c3, hb, hrot⟩ := except_map_ok_elim h
  obtain ⟨c1, _, hv⟩ := except_bind_ok_elim hb
  have h3 := adv_combOK_set_view hv
  rw [← hrot, AdvanceCamera.set_rotation_matrix_eq]
  exact h3

/-! ### Reachable states -/

/-- The states a BaseCamera object can be in: freshly constructed, or the
result of a public operation applied to a reachable state. -/
inductive BaseReachable : BaseCamera → Prop where
  | init (ww wh : ℝ) (vp : Option ViewportRect) (pr : Option ProjRect) (c : BaseCamera) :
      BaseCamera.init ww wh vp pr = .ok c → BaseReachable c
  | viewport_set (c : BaseCamera) (v : ViewportRect) :
      BaseReachable c → BaseReachable (c.viewport_set v)
  | projection_set (c c2 : BaseCamera) (p : ProjRect) :
      BaseReachable c → c.projection_set p = .ok c2 → BaseReachable c2
  | move_to (c : BaseCamera) (v : Vec2) (s : ℝ) :
      BaseReachable c → BaseReachable (c.move_to v s)
  | move (c : BaseCamera) (v : Vec2) :
      BaseReachable c → BaseReachable (c.move v)
  | update (c c2 : BaseCamera) :
      BaseReachable c → c.update = .ok c2 → BaseReachable c2
  | use (c c2 : BaseCamera) :
      BaseReachable c → c.use = .ok c2 → BaseReachable c2

/-- The states an AdvanceCamera object can be in: freshly constructed, or
the result of a public operation applied to a reachable state. -/
inductive AdvReachable : AdvanceCamera → Prop where
  | init (ww wh : ℝ) (vp : Option ViewportRect) (pr : Option ProjRect) (z r : ℝ)
      (a : Option (ℝ × ℝ)) (c : AdvanceCamera) :
      AdvanceCamera.init ww wh vp pr z r a = .ok c → AdvReachable c
  | viewport_set (c c2 : AdvanceCamera) (v : Option ViewportRect) :
      AdvReachable c → c.viewport_set v = .ok c2 → AdvReachable c2
  | projection_set (c c2 : AdvanceCamera) (p : Option ProjRect) :
      AdvReachable c → c.projection_set p = .ok c2 → AdvReachable c2
  | zoom_set (c c2 : AdvanceCamera) (z : ℝ) :
      AdvReachable c → c.zoom_set z = .ok c2 → AdvReachable c2
  | near_set (c c2 : AdvanceCamera) (x : ℝ) :
      AdvReachable c → c.near_set x = .ok c2 → AdvReachable c2
  | far_set (c c2 : AdvanceCamera) (x : ℝ) :
      AdvReachable c → c.far_set x = .ok c2 → AdvReachable c2
  | rotation_set (c : AdvanceCamera) (r : ℝ) :
      AdvReachable c → AdvReachable (c.rotation_set r)
  | anchor_set (c : AdvanceCamera) (a : Option (ℝ × ℝ)) :
      AdvReachable c → AdvReachable (c.anchor_set a)
  | shake (c : AdvanceCamera) (v : Vec2) (sp dp : ℝ) :
      AdvReachable c → AdvReachable (c.shake v sp dp)
  | move_to (c : AdvanceCamera) (v : Vec2) (s : ℝ) :
      AdvReachable c → AdvReachable (c.move_to v s)
  | move (c : AdvanceCamera) (v : Vec2) :
      AdvReachable c → AdvReachable (c.move v)
  | center (c : AdvanceCamera) (v : Vec2) (s : ℝ) :
      AdvReachable c → AdvReachable (c.center v s)
  | resize (c c2 : AdvanceCamera) (w h : ℝ) :
      AdvReachable c → c.resize w h = .ok c2 → AdvReachable c2
  | update (c c2 : AdvanceCamera) :
      AdvReachable c → c.update = .ok c2 → AdvReachable c2
  | use (c c2 : AdvanceCamera) (out : AdvUseOutput) :
      AdvReachable c → c.use = .ok (c2, out) → AdvReachable c2

lemma base_reachable_combOK {c : BaseCamera} (h : BaseReachable c) : c.combOK := by
  induction h with
  | init ww wh vp pr c h => exact base_combOK_init h
  | viewport_set c v _ ih => exact ih
  | projection_set c c2 p _ h ih => exact base_combOK_projection_set h
  | move_to c v s _ ih => exact ih
  | move c v _ ih => exact ih
  | update c c2 _ h ih => exact base_combOK_update ih h
  | use c c2 _ h ih => exact base_combOK_update ih h

lemma adv_reachable_combOK {c : AdvanceCamera} (h : AdvReachable c) : c.combOK := by
  induction h with
  | init ww wh vp pr z r a c h => exact adv_combOK_init h
  | viewport_set c c2 v _ h ih => exact AdvanceCamera.combOK_viewport_set h
  | projection_set c c2 p _ h ih => exact adv_combOK_projection_set h
  | zoom_set c c2 z _ h ih => exact AdvanceCamera.combOK_zoom_set h
  | near_set c c2 x _ h ih => exact AdvanceCamera.combOK_near_set h
  | far_set c c2 x _ h ih => exact AdvanceCamera.combOK_far_set h
  | rotation_set c r _ ih => exact ih
  | anchor_set c a _ ih => exact ih
  | shake c v sp dp _ ih => exact ih
  | move_to c v s _ ih => exact ih
  | move c v _ ih => exact ih
  | center c v s _ ih => exact ih
  | resize c c2 w hh _ h ih => exact AdvanceCamera.combOK_viewport_set h
  | update c c2 _ h ih => exact adv_combOK_update ih h
  | use c c2 out _ h ih => exact adv_combOK_use ih h

/-! ### The Standard Camera and its combined matrix -/

/-- For the Standard camera the cached combined matrix agrees with the
product of the cached projection matrix and the cached view matrix (both
sides None before the first update). -/
def Camera.combOK (c : Camera) : Prop :=
  c.combined_matrix = c.view_matrix.map (fun v => c.projection_matrix * v)

lemma Camera.update_ok {c c2 : Camera} (h : c.update = .ok c2) :
    ∃ p sv so v, c2 = { c with
      position := p
      shake_velocity := sv
      shake_offset := so
      view_matrix := some v
      combined_matrix := some (c.projection_matrix * v) } := by
  unfold Camera.update at h
  dsimp only at h
  split at h
  · cases h
  · exact ⟨_, _, _, _, (Except.ok.inj h).symm⟩

lemma cam_combOK_update {c c2 : Camera} (h : c.update = .ok c2) : c2.combOK := by
  obtain ⟨p, sv, so, v, rfl⟩ := Camera.update_ok h
  unfold Camera.combOK
  rfl

lemma cam_combOK_use {c c2 : Camera} {rot : Mat4} (h : c.use = .ok (c2, rot)) :
    c2.combOK := by
  unfold Camera.use at h
  obtain ⟨c3, hu, hpair⟩ := except_map_ok_elim h
  obtain ⟨h1, h2⟩ := Prod.mk.injEq .. ▸ hpair
  exact h1 ▸ cam_combOK_update hu

/-! ### Small computation helpers -/

lemma Vec2.add_def (a b : Vec2) : a + b = ⟨a.x + b.x, a.y + b.y⟩ := rfl

lemma Vec2.sub_def (a b : Vec2) : a - b = ⟨a.x - b.x, a.y - b.y⟩ := rfl

lemma Vec2.mul_def (a b : Vec2) : a * b = ⟨a.x * b.x, a.y * b.y⟩ := rfl

lemma TS_one : Mat4.fromTranslation ⟨0, 0, 0⟩ * Mat4.scaleDiag ⟨1, 1, 1⟩ = 1 := by
  ext i j
  fin_cases i <;> fin_cases j <;>
    simp [Mat4.fromTranslation, Mat4.scaleDiag, Matrix.mul_apply, Fin.sum_univ_four,
      Matrix.one_apply, Matrix.vecHead, Matrix.vecTail]

/-! ### Concrete states for claim C1 -/

/-- The literal state BaseCamera.init builds for an 800 by 600 window with
default rectangles. -/
def baseCam800 : BaseCamera :=
  { window_width := 800
    window_height := 600
    viewport := ⟨0, 0, 800, 600⟩
    projection := ⟨0, 800, 0, 600⟩
    projection_matrix := Mat4.orthoEntries 0 800 0 600 (-1) 1
    view_matrix := (Mat4.fromTranslation ⟨0, 0, 0⟩)⁻¹
    combined_matrix := Mat4.orthoEntries 0 800 0 600 (-1) 1 * (Mat4.fromTranslation ⟨0, 0, 0⟩)⁻¹
    position := ⟨0, 0⟩
    goal_position := ⟨0, 0⟩
    move_speed := 1
    moving := false }

lemma baseCam800_init : BaseCamera.init 800 600 none none = .ok baseCam800 := by
  unfold BaseCamera.init
  dsimp only
  rw [base_set_projection_matrix_eq]
  norm_num [BaseCamera.proj_bad, base_set_view_matrix_eq, BaseCamera.view_bad,
    BaseCamera.viewport_width, BaseCamera.viewport_height, BaseCamera.view_value,
    BaseCamera.proj_value, Except.bind, baseCam800]

/-- The Standard camera freshly constructed against an 800 by 600 window. -/
def stdCam800 : Camera :=
  { window_width := 800
    window_height := 600
    position := ⟨0, 0⟩
    goal_position := ⟨0, 0⟩
    rotation := 0
    anchor := none
    move_speed := 1
    projection_matrix := Mat4.orthoEntries 0 800 0 600 (-1) 1
    view_matrix := none
    combined_matrix := none
    near := -1
    far := 1
    shake_velocity := ⟨0, 0⟩
    shake_offset := ⟨0, 0⟩
    shake_speed := 0
    shake_damping := 0
    scale := 1
    viewport_width := 800
    viewport_height := 600 }

lemma stdCam800_init : Camera.init 800 600 0 0 = .ok stdCam800 := by
  norm_num [Camera.init, Camera.set_projection, Mat4.orthogonal_projection, Except.map,
    Mat4.orthoEntries, stdCam800]

/-- The view matrix the Standard camera computes at the origin with scale
one: the inverse of the identity product. -/
def V1 : Mat4 := (Mat4.fromTranslation ⟨0, 0, 0⟩ * Mat4.scaleDiag ⟨1, 1, 1⟩)⁻¹

/-- stdCam800 after one update. -/
def stdCam800u : Camera :=
  { stdCam800 with
    view_matrix := some V1
    combined_matrix := some (Mat4.orthoEntries 0 800 0 600 (-1) 1 * V1) }

lemma stdCam800_update : stdCam800.update = .ok stdCam800u := by
  norm_num [Camera.update, Vec2.lerp, Vec2.add_def, Vec2.mul_def, get_distance,
    min_self, stdCam800, stdCam800u, V1]

/-- stdCam800u after resize(400, 300): the projection matrix is rebuilt, the
combined matrix is left as it was. -/
def stdCam800r : Camera :=
  { stdCam800u with
    viewport_width := 400
    viewport_height := 300
    projection_matrix := Mat4.orthoEntries 0 400 0 300 (-1) 1 }

lemma stdCam800_resize : stdCam800u.resize 400 300 = .ok stdCam800r := by
  norm_num [Camera.resize, Camera.set_projection, Mat4.orthogonal_projection, Except.map,
    stdCam800, stdCam800u, stdCam800r, V1]

lemma V1_eq_one : V1 = 1 := by
  rw [V1, TS_one]
  exact Matrix.inv_eq_left_inv (by simp)

lemma stdCam800r_not_combOK : ¬ stdCam800r.combOK := by
  intro h
  unfold Camera.combOK stdCam800r stdCam800u stdCam800 at h
  simp only [Option.map_some] at h
  have h2 := Option.some.inj h
  dsimp only at h2
  rw [V1_eq_one, mul_one, mul_one] at h2
  have h3 := congrFun (congrFun h2 0) 0
  norm_num [Mat4.orthoEntries] at h3

/-! ### Claim C1 -/

/-- C1 (amended): for the Basic and Advanced cameras the cached combined
matrix equals the cached projection matrix times the cached view matrix in
every reachable state, hence after any mutation and before use() returns;
for the Standard camera the invariant holds on the state that use()
publishes, i.e. right after its internal update(), but not after every
mutation (its set_projection and resize leave the combined matrix stale
until the next update). -/
theorem C1_combined_matrix_invariant :
    (∀ c : BaseCamera, BaseReachable c →
        c.combined_matrix = c.projection_matrix * c.view_matrix) ∧
    (∀ c : AdvanceCamera, AdvReachable c →
        c.combined_matrix = c.projection_matrix * c.view_matrix) ∧
    (∀ (c c2 : Camera) (rot : Mat4), c.use = .ok (c2, rot) →
        c2.combined_matrix = c2.view_matrix.map fun v => c2.projection_matrix * v) :=
  ⟨fun _ h => base_reachable_combOK h, fun _ h => adv_reachable_combOK h,
   fun _ _ _ h => cam_combOK_use h⟩

/-- Witness for C1: the invariant evaluated on the concrete reachable state
that BaseCamera.init builds for an 800 by 600 window. -/
theorem C1_combined_matrix_invariant_witness :
    baseCam800.combined_matrix = baseCam800.projection_matrix * baseCam800.view_matrix :=
  C1_combined_matrix_invariant.1 baseCam800
    (BaseReachable.init 800 600 none none baseCam800 baseCam800_init)

/-- Counterexample for C1 as stated: on the Standard camera, the reachable
state obtained by construction, one update() and then resize(400, 300) has
a cached combined matrix different from its cached projection matrix times
its cached view matrix; resize rebuilt the projection matrix but left the
combined matrix stale. -/
theorem C1_combined_matrix_counterexample :
    Camera.init 800 600 0 0 = .ok stdCam800 ∧
      stdCam800.update = .ok stdCam800u ∧
      stdCam800u.resize 400 300 = .ok stdCam800r ∧
      ¬ stdCam800r.combined_matrix =
          stdCam800r.view_matrix.map fun v => stdCam800r.projection_matrix * v :=
  ⟨stdCam800_init, stdCam800_update, stdCam800_resize, stdCam800r_not_combOK⟩

/-! ### A concrete Advanced camera -/

/-- The literal state AdvanceCamera.init builds for an 800 by 600 window
with default rectangles, zoom 1, rotation 0 and no anchor. -/
def advCam800 : AdvanceCamera :=
  { window_width := 800
    window_height := 600
    position := ⟨0, 0⟩
    goal_position := ⟨0, 0⟩
    move_speed := 1
    moving := false
    zoom := 1
    rotation := 0
    anchor := none
    near := -1
    far := 1
    shake_velocity := ⟨0, 0⟩
    shake_offset := ⟨0, 0⟩
    shake_speed := 0
    shake_damping := 0
    shaking := false
    viewport := ⟨0, 0, 800, 600⟩
    projection := ⟨0, 800, 0, 600⟩
    projection_matrix := Mat4.orthoEntries 0 800 0 600 (-1) 1
    view_matrix := V1
    combined_matrix := Mat4.orthoEntries 0 800 0 600 (-1) 1 * V1
    rotation_matrix := Mat4.fromTranslation ⟨-400, -300, 0⟩ *
      Mat4.fromRotationZ (radians 0) * Mat4.fromTranslation ⟨400, 300, 0⟩ }

lemma advCam800_init : AdvanceCamera.init 800 600 none none 1 0 none = .ok advCam800 := by
  unfold AdvanceCamera.init
  dsimp only
  rw [adv_set_projection_matrix_eq]
  norm_num [AdvanceCamera.proj_bad, adv_set_view_matrix_eq, AdvanceCamera.view_bad,
    AdvanceCamera.set_rotation_matrix_eq, AdvanceCamera.rot_value, AdvanceCamera.rot_offset,
    AdvanceCamera.viewport_width, AdvanceCamera.viewport_height, AdvanceCamera.view_value,
    AdvanceCamera.proj_value, Vec3.neg, Except.bind, Except.map, advCam800, V1]

/-! ### Claim C2 -/

lemma advCam800_shake_update :
    (advCam800.shake ⟨0, 1⟩ (3 / 2) (9 / 10)).update =
      .ok { advCam800.shake ⟨0, 1⟩ (3 / 2) (9 / 10) with
            shake_velocity := ⟨0, -(9 / 10)⟩
            shake_offset := ⟨0, 0⟩
            shaking := false } := by
  norm_num [AdvanceCamera.update, AdvanceCamera.shake, advCam800, atan2, get_distance,
    Vec2.add_def, Vec2.mul_def, min_def, Real.sin_pi, Real.cos_pi, Real.arctan_zero]

/-- C2: evaluating the code at the failing input.  On the fresh Advanced
camera for an 800 by 600 window, after shake(velocity=(0,1), speed=3/2,
damping=9/10), a single update() takes the termination branch (both the
velocity magnitude 1 and the offset distance 1 are below shake_speed = 3/2),
zeroes the offset and clears the shaking flag, yet ends with
shake_velocity = (0, -9/10), which is not the zero vector: the
add-the-opposite-pull-then-damp lines run unconditionally after the
zeroing branch, so the claimed invariant (shaking false implies zero
shake velocity) fails in the very step that terminates the shake. -/
theorem C2_shake_termination_nonzero_velocity :
    AdvanceCamera.init 800 600 none none 1 0 none = .ok advCam800 ∧
      (advCam800.shake ⟨0, 1⟩ (3 / 2) (9 / 10)).update =
        .ok { advCam800.shake ⟨0, 1⟩ (3 / 2) (9 / 10) with
              shake_velocity := ⟨0, -(9 / 10)⟩
              shake_offset := ⟨0, 0⟩
              shaking := false } ∧
      ((⟨0, -(9 / 10)⟩ : Vec2) ≠ ⟨0, 0⟩) :=
  ⟨advCam800_init, advCam800_shake_update, by
    intro h
    have h2 := congrArg Vec2.y h
    norm_num at h2⟩

/-! ### Claim C8 -/

/-- C8 (amended): center(point, speed) on the Advanced camera sets the goal
position to point plus the current position minus the half viewport extents
(and stores the speed and raises the moving flag); because the current
position is added in, the goal equals point minus the half extents only
when the position is the origin. -/
theorem C8_center_goal :
    ∀ (c : AdvanceCamera) (v : Vec2) (s : ℝ),
      (c.center v s).goal_position =
          ⟨v.x + c.position.x - c.viewport.width / 2,
           v.y + c.position.y - c.viewport.height / 2⟩ ∧
        (c.center v s).move_speed = s ∧ (c.center v s).moving = true := by
  intro c v s
  refine ⟨?_, rfl, rfl⟩
  unfold AdvanceCamera.center AdvanceCamera.move_to AdvanceCamera.viewport_width
    AdvanceCamera.viewport_height
  dsimp only
  rw [Vec2.add_def, Vec2.sub_def]

/-- A reachable Advanced camera standing at position (5, 5). -/
def advCamC8 : AdvanceCamera := { advCam800 with position := ⟨5, 5⟩ }

/-- Counterexample for C8 as stated: with the camera at position (5, 5) in
an 800 by 600 viewport, center((100, 100), 1) sets the goal position to
(-295, -195), not to point minus the half viewport extents (-300, -200):
the current position is added into the target. -/
theorem C8_center_counterexample :
    (advCamC8.center ⟨100, 100⟩ 1).goal_position = ⟨-295, -195⟩ ∧
      ((⟨-295, -195⟩ : Vec2) ≠
        ⟨100 - 800 / 2, 100 - 600 / 2⟩) := by
  constructor
  · norm_num [AdvanceCamera.center, AdvanceCamera.move_to, AdvanceCamera.viewport_width,
      AdvanceCamera.viewport_height, Vec2.add_def, Vec2.sub_def, advCamC8, advCam800]
  · intro h
    have h2 := congrArg Vec2.x h
    norm_num at h2

/-! ### Claim C9 -/

/-- C9: Camera.zoom (the Standard variant) raises NotImplementedError for
every argument, and the camera state after the failed call is the receiver
unchanged. -/
theorem C9_standard_zoom_not_implemented :
    ∀ (c : Camera) (change : ℝ),
      c.zoom change = (Except.error CameraError.notImplementedError, c) :=
  fun _ _ => rfl

/-! ### Claim C6 -/

lemma except_bind_ok {α β ε : Type} (x : α) (f : α → Except ε β) :
    Except.bind (Except.ok x) f = f x := rfl

/-- C6 (amended): on the Advanced camera, assigning a viewport with zero
width or zero height raises ZeroDivisionError synchronously from the view
matrix computation, and setting zoom to zero raises ZeroDivisionError (from
the projection computation when the zoomed projection box degenerates,
otherwise from the view matrix division); no value is clamped.  A negative
zoom, however, is accepted without any error, and no InvalidViewport or
InvalidZoom error classes exist anywhere in the code. -/
theorem C6_validation_behaviour :
    (∀ (c : AdvanceCamera) (v : ViewportRect), v.width = 0 ∨ v.height = 0 →
        c.viewport_set (some v) = .error CameraError.zeroDivisionError) ∧
      (∀ c : AdvanceCamera, c.zoom_set 0 = .error CameraError.zeroDivisionError) ∧
      (∀ e : CameraError, advCam800.zoom_set (-1) ≠ .error e) := by
  refine ⟨?_, ?_, ?_⟩
  · intro c v h
    unfold AdvanceCamera.viewport_set
    rw [adv_set_view_matrix_eq, if_pos]
    · rfl
    · unfold AdvanceCamera.view_bad
      rcases h with h | h
      · exact Or.inl (by simp [h])
      · exact Or.inr (by simp [h])
  · intro c
    unfold AdvanceCamera.zoom_set
    rw [adv_set_projection_matrix_eq]
    by_cases h : ({ c with zoom := 0 } : AdvanceCamera).proj_bad
    · rw [if_pos h]
      rfl
    · rw [if_neg h, except_bind_ok]
      rw [adv_set_view_matrix_eq, if_pos]
      unfold AdvanceCamera.view_bad
      exact Or.inl (by simp)
  · intro e h
    unfold AdvanceCamera.zoom_set at h
    rw [adv_set_projection_matrix_eq, if_neg (by norm_num [AdvanceCamera.proj_bad,
      advCam800]), except_bind_ok] at h
    rw [adv_set_view_matrix_eq, if_neg (by norm_num [AdvanceCamera.view_bad,
      advCam800])] at h
    exact Except.noConfusion h

/-- Witness for C6: the zero-width viewport case evaluated on the concrete
camera advCam800. -/
theorem C6_validation_behaviour_witness :
    advCam800.viewport_set (some ⟨0, 0, 0, 600⟩) = .error CameraError.zeroDivisionError :=
  C6_validation_behaviour.1 advCam800 ⟨0, 0, 0, 600⟩ (Or.inl rfl)

/-- Counterexample for C6 as stated: setting zoom to zero on the concrete
Advanced camera fails with ZeroDivisionError, which is not the InvalidZoom
class the claim names (no such class exists in the code), and setting zoom
to the negative value -1 does not fail at all. -/
theorem C6_validation_counterexample :
    advCam800.zoom_set 0 = .error CameraError.zeroDivisionError ∧
      CameraError.zeroDivisionError ≠ CameraError.invalidZoom ∧
      ∀ e : CameraError, advCam800.zoom_set (-1) ≠ .error e := by
  refine ⟨?_, ?_, ?_⟩
  · unfold AdvanceCamera.zoom_set
    rw [adv_set_projection_matrix_eq, if_pos (by norm_num [AdvanceCamera.proj_bad,
      advCam800])]
    rfl
  · exact fun h => nomatch h
  · intro e h
    unfold AdvanceCamera.zoom_set at h
    rw [adv_set_projection_matrix_eq, if_neg (by norm_num [AdvanceCamera.proj_bad,
      advCam800]), except_bind_ok] at h
    rw [adv_set_view_matrix_eq, if_neg (by norm_num [AdvanceCamera.view_bad,
      advCam800])] at h
    exact Except.noConfusion h


/-! ### Rotation matrix lemmas and claims C5 and C3 -/



/-- The anchored rotation product written out entrywise. -/
lemma rotAbout_entries (o : Vec3) (t : ℝ) :
    Mat4.fromTranslation o.neg * Mat4.fromRotationZ t * Mat4.fromTranslation o =
      !![Real.cos t, -Real.sin t, 0, Real.cos t * o.x - Real.sin t * o.y - o.x;
         Real.sin t, Real.cos t, 0, Real.sin t * o.x + Real.cos t * o.y - o.y;
         0, 0, 1, 0;
         0, 0, 0, 1] := by
  ext i j
  fin_cases i <;> fin_cases j <;>
    simp [Mat4.fromTranslation, Mat4.fromRotationZ, Vec3.neg, Matrix.mul_apply,
      Fin.sum_univ_four, Matrix.vecHead, Matrix.vecTail] <;> ring

/-- The anchored rotation fixes the negated anchor offset. -/
lemma rotAbout_fixes_neg (o : Vec3) (t : ℝ) :
    (Mat4.fromTranslation o.neg * Mat4.fromRotationZ t * Mat4.fromTranslation o).mulVec
      ![-o.x, -o.y, -o.z, 1] = ![-o.x, -o.y, -o.z, 1] := by
  funext i
  fin_cases i <;>
    simp [Mat4.fromTranslation, Mat4.fromRotationZ, Vec3.neg, Matrix.mulVec,
      Matrix.mul_apply, Matrix.dotProduct, Fin.sum_univ_four, Matrix.vecHead,
      Matrix.vecTail] <;> ring

lemma radians_180 : radians 180 = Real.pi := by
  unfold radians
  ring




/-- C5 (amended): the rotation matrix the Advanced camera derives,
translate(-anchor) times rotateZ times translate(anchor) under the standard
column-vector convention, maps the NEGATION of the anchor point to itself:
for an explicit anchor P, rotationMatrix * (-P) = -P for every rotation
angle, and with no anchor set it fixes the negation of position plus the
half viewport extents.  The anchor point P itself is not a fixed point in
general (see the counterexample). -/
theorem C5_rotation_anchor_fixed_point :
    (∀ (c : AdvanceCamera) (px py : ℝ), c.anchor = some (px, py) →
        (c.set_rotation_matrix).rotation_matrix.mulVec ![-px, -py, 0, 1] =
          ![-px, -py, 0, 1]) ∧
      (∀ c : AdvanceCamera, c.anchor = none →
        (c.set_rotation_matrix).rotation_matrix.mulVec
            ![-(c.position.x + c.viewport.width / 2),
              -(c.position.y + c.viewport.height / 2), 0, 1] =
          ![-(c.position.x + c.viewport.width / 2),
            -(c.position.y + c.viewport.height / 2), 0, 1]) := by
  constructor
  · intro c px py h
    rw [AdvanceCamera.set_rotation_matrix_eq]
    show (AdvanceCamera.rot_value c).mulVec _ = _
    unfold AdvanceCamera.rot_value
    rw [show c.rot_offset = ⟨px, py, 0⟩ by unfold AdvanceCamera.rot_offset; rw [h]]
    have h2 := rotAbout_fixes_neg ⟨px, py, 0⟩ (radians c.rotation)
    simpa using h2
  · intro c h
    rw [AdvanceCamera.set_rotation_matrix_eq]
    show (AdvanceCamera.rot_value c).mulVec _ = _
    unfold AdvanceCamera.rot_value
    rw [show c.rot_offset = ⟨c.position.x + c.viewport.width / 2,
        c.position.y + c.viewport.height / 2, 0⟩ by
      unfold AdvanceCamera.rot_offset AdvanceCamera.viewport_width AdvanceCamera.viewport_height
      rw [h]]
    have h2 := rotAbout_fixes_neg ⟨c.position.x + c.viewport.width / 2,
        c.position.y + c.viewport.height / 2, 0⟩ (radians c.rotation)
    simpa using h2

/-- The Advanced camera with rotation 180 degrees anchored at (10, 20). -/
def advCamC5 : AdvanceCamera := { advCam800 with rotation := 180, anchor := some (10, 20) }

/-- Witness for C5: the camera anchored at (10, 20) maps (-10, -20) to
itself under its rotation matrix. -/
theorem C5_witness :
    (advCamC5.set_rotation_matrix).rotation_matrix.mulVec ![-10, -20, 0, 1] =
      ![-10, -20, 0, 1] :=
  C5_rotation_anchor_fixed_point.1 advCamC5 10 20 rfl

/-- Counterexample for C5 as stated: with the anchor explicitly set to
P = (10, 20) and rotation 180 degrees, the rotation matrix does not map P
to itself (it sends it to (-30, -60)): rotationMatrix * P is not P. -/
theorem C5_counterexample :
    (advCamC5.set_rotation_matrix).rotation_matrix.mulVec ![10, 20, 0, 1] ≠
      ![10, 20, 0, 1] := by
  intro h
  rw [AdvanceCamera.set_rotation_matrix_eq] at h
  have h0 : (AdvanceCamera.rot_value advCamC5).mulVec ![10, 20, 0, 1] = ![10, 20, 0, 1] := h
  unfold AdvanceCamera.rot_value at h0
  rw [show advCamC5.rot_offset = ⟨10, 20, 0⟩ from rfl,
    show advCamC5.rotation = 180 from rfl, rotAbout_entries, radians_180] at h0
  have h2 := congrFun h0 0
  norm_num [Matrix.mulVec, Matrix.dotProduct, Fin.sum_univ_four, Matrix.vecHead,
    Matrix.vecTail, Real.cos_pi, Real.sin_pi] at h2




/-- C3 (amended): the rotation matrix is recomputed by the rotation, anchor
and viewport setters, so right after any of those the cached rotation
matrix equals the translate(-anchor) rotateZ translate(anchor) value
derived from the current fields; but update() never recomputes it, so after
a position change from movement the cached (and published) rotation matrix
is stale with respect to the default anchor (see the counterexample). -/
theorem C3_rotation_recompute :
    (∀ (c : AdvanceCamera) (r : ℝ),
        (c.rotation_set r).rotation_matrix = (c.rotation_set r).rot_value) ∧
      (∀ (c : AdvanceCamera) (a : Option (ℝ × ℝ)),
        (c.anchor_set a).rotation_matrix = (c.anchor_set a).rot_value) ∧
      (∀ (c c2 : AdvanceCamera) (v : Option ViewportRect), c.viewport_set v = .ok c2 →
        c2.rotation_matrix = c2.rot_value) ∧
      (∀ c c2 : AdvanceCamera, c.update = .ok c2 →
        c2.rotation_matrix = c.rotation_matrix) := by
  refine ⟨fun c r => rfl, fun c a => rfl, ?_, ?_⟩
  · intro c c2 v h
    unfold AdvanceCamera.viewport_set at h
    obtain ⟨c3, hv, hrot⟩ := except_map_ok_elim h
    rw [← hrot, AdvanceCamera.set_rotation_matrix_eq]
    rfl
  · intro c c2 h
    obtain ⟨X, _, _, _, hr, he⟩ := AdvanceCamera.update_shape c
    rw [he] at h
    split at h
    · rw [adv_set_view_matrix_ok h]
      exact hr
    · obtain rfl := Except.ok.inj h
      exact hr

/-- advCam800 after assigning the viewport (0, 0, 400, 300). -/
def advCamC3v : AdvanceCamera :=
  { advCam800 with
    viewport := ⟨0, 0, 400, 300⟩
    view_matrix := V1
    combined_matrix := Mat4.orthoEntries 0 800 0 600 (-1) 1 * V1
    rotation_matrix := Mat4.fromTranslation ⟨-200, -150, 0⟩ *
      Mat4.fromRotationZ (radians 0) * Mat4.fromTranslation ⟨200, 150, 0⟩ }

lemma advCamC3v_eval : advCam800.viewport_set (some ⟨0, 0, 400, 300⟩) = .ok advCamC3v := by
  norm_num [AdvanceCamera.viewport_set, adv_set_view_matrix_eq,
    AdvanceCamera.view_bad, AdvanceCamera.view_value, AdvanceCamera.set_rotation_matrix_eq,
    AdvanceCamera.rot_value, AdvanceCamera.rot_offset, AdvanceCamera.viewport_width,
    AdvanceCamera.viewport_height, Vec3.neg, Except.map, advCam800, advCamC3v, V1]

/-- Witness for C3: the rotation matrix cached after assigning a new
viewport equals the derived value, and an update() on the settled camera
leaves the cached rotation matrix untouched. -/
theorem C3_rotation_recompute_witness :
    advCamC3v.rotation_matrix = advCamC3v.rot_value ∧
      advCam800.rotation_matrix = advCam800.rotation_matrix :=
  ⟨C3_rotation_recompute.2.2.1 advCam800 advCamC3v (some ⟨0, 0, 400, 300⟩) advCamC3v_eval,
   C3_rotation_recompute.2.2.2 advCam800 advCam800 rfl⟩

/-- The Advanced camera rotated by 180 degrees (default anchor) and sent
moving towards (10, 0) at speed one. -/
def advCamC3 : AdvanceCamera := (advCam800.rotation_set 180).move_to ⟨10, 0⟩ 1

/-- Counterexample for C3 as stated: use() on the moving camera updates the
position to (10, 0) but publishes the rotation matrix computed back when
the position was the origin, which differs from the rotation matrix derived
from the published state (their translation entries are -800 versus -820):
the published rotation matrix is stale with respect to the moved position. -/
theorem C3_stale_rotation_counterexample :
    advCamC3.use = .ok ({ advCamC3 with position := ⟨10, 0⟩, moving := false },
        ⟨advCamC3.viewport, advCamC3.combined_matrix, advCamC3.rotation_matrix⟩) ∧
      advCamC3.rotation_matrix ≠
        ({ advCamC3 with position := ⟨10, 0⟩, moving := false } : AdvanceCamera).rot_value := by
  constructor
  · norm_num [AdvanceCamera.use, AdvanceCamera.update, AdvanceCamera.rotation_set,
      AdvanceCamera.set_rotation_matrix_eq, AdvanceCamera.move_to, Vec2.lerp, Except.map,
      advCamC3, advCam800]
  · intro h
    rw [show advCamC3.rotation_matrix = Mat4.fromTranslation ⟨-400, -300, 0⟩ *
        Mat4.fromRotationZ (radians 180) * Mat4.fromTranslation ⟨400, 300, 0⟩ by
      norm_num [advCamC3, AdvanceCamera.rotation_set, AdvanceCamera.move_to,
        AdvanceCamera.set_rotation_matrix_eq, AdvanceCamera.rot_value,
        AdvanceCamera.rot_offset, AdvanceCamera.viewport_width, AdvanceCamera.viewport_height,
        Vec3.neg, advCam800]] at h
    rw [show ({ advCamC3 with position := ⟨10, 0⟩, moving := false } : AdvanceCamera).rot_value =
        Mat4.fromTranslation ⟨-410, -300, 0⟩ * Mat4.fromRotationZ (radians 180) *
          Mat4.fromTranslation ⟨410, 300, 0⟩ by
      norm_num [advCamC3, AdvanceCamera.rotation_set, AdvanceCamera.move_to,
        AdvanceCamera.set_rotation_matrix_eq, AdvanceCamera.rot_value,
        AdvanceCamera.rot_offset, AdvanceCamera.viewport_width, AdvanceCamera.viewport_height,
        Vec3.neg, advCam800]] at h
    rw [show (⟨-400, -300, 0⟩ : Vec3) = Vec3.neg ⟨400, 300, 0⟩ by norm_num [Vec3.neg],
      show (⟨-410, -300, 0⟩ : Vec3) = Vec3.neg ⟨410, 300, 0⟩ by norm_num [Vec3.neg],
      rotAbout_entries, rotAbout_entries, radians_180] at h
    have h2 := congrFun (congrFun h 0) 3
    norm_num [Real.cos_pi, Real.sin_pi, Matrix.vecHead, Matrix.vecTail] at h2



/-! ### Claims C10 and C7: movement iteration -/



/-- n-fold iteration of BaseCamera.update in the Except monad. -/
def BaseCamera.update_iter (c : BaseCamera) : ℕ → Except CameraError BaseCamera
  | 0 => .ok c
  | n + 1 => (c.update_iter n).bind BaseCamera.update

/-- With zero move speed the lerp returns the position unchanged, so update
recomputes the view matrix and changes nothing else. -/
lemma base_update_zero_speed {c : BaseCamera} (hs : c.move_speed = 0)
    (hm : c.moving = true) (hne : c.position ≠ c.goal_position) (hb : ¬ c.view_bad) :
    c.update = .ok { c with
      view_matrix := c.view_value
      combined_matrix := c.projection_matrix * c.view_value } := by
  have hp : c.position.lerp c.goal_position c.move_speed = c.position := by
    rw [hs]
    unfold Vec2.lerp
    norm_num
  unfold BaseCamera.update
  dsimp only
  split
  · rw [hp, if_neg hne, base_set_view_matrix_eq]
    split
    · next h2 => exact absurd h2 hb
    · rfl
  · next h2 => exact absurd hm h2

lemma base_update_iter_zero_speed (c : BaseCamera) (hs : c.move_speed = 0)
    (hm : c.moving = true) (hne : c.position ≠ c.goal_position) (hb : ¬ c.view_bad) (n : ℕ) :
    c.update_iter n = .ok c ∨
      c.update_iter n = .ok { c with
        view_matrix := c.view_value
        combined_matrix := c.projection_matrix * c.view_value } := by
  induction n with
  | zero => exact Or.inl rfl
  | succ n ih =>
      have hfix : ({ c with
          view_matrix := c.view_value
          combined_matrix := c.projection_matrix * c.view_value } : BaseCamera).update =
          .ok { c with
                view_matrix := c.view_value
                combined_matrix := c.projection_matrix * c.view_value } :=
        base_update_zero_speed hs hm hne hb
      rcases ih with h | h
      all_goals right
      all_goals show (c.update_iter n).bind BaseCamera.update = _
      · rw [h, except_bind_ok, base_update_zero_speed hs hm hne hb]
      · rw [h, except_bind_ok, hfix]




/-- n-fold iteration of AdvanceCamera.update in the Except monad. -/
def AdvanceCamera.update_iter (c : AdvanceCamera) : ℕ → Except CameraError AdvanceCamera
  | 0 => .ok c
  | n + 1 => (c.update_iter n).bind AdvanceCamera.update

lemma adv_update_zero_speed {c : AdvanceCamera} (hs : c.move_speed = 0)
    (hm : c.moving = true) (hsh : c.shaking = false) (hne : c.position ≠ c.goal_position)
    (hb : ¬ c.view_bad) :
    c.update = .ok { c with
      view_matrix := c.view_value
      combined_matrix := c.projection_matrix * c.view_value } := by
  have hp : c.position.lerp c.goal_position c.move_speed = c.position := by
    rw [hs]
    unfold Vec2.lerp
    norm_num
  unfold AdvanceCamera.update
  dsimp only
  rw [hp, if_neg hne]
  split
  · split
    · next h3 => simp [hsh] at h3
    · split
      · rw [adv_set_view_matrix_eq]
        split
        · next h5 => exact absurd h5 hb
        · rfl
      · next h4 => simp [hm, hsh] at h4
  · next h2 => exact absurd hm h2




lemma adv_update_iter_zero_speed (c : AdvanceCamera) (hs : c.move_speed = 0)
    (hm : c.moving = true) (hsh : c.shaking = false) (hne : c.position ≠ c.goal_position)
    (hb : ¬ c.view_bad) (n : ℕ) :
    c.update_iter n = .ok c ∨
      c.update_iter n = .ok { c with
        view_matrix := c.view_value
        combined_matrix := c.projection_matrix * c.view_value } := by
  induction n with
  | zero => exact Or.inl rfl
  | succ n ih =>
      have hfix : ({ c with
          view_matrix := c.view_value
          combined_matrix := c.projection_matrix * c.view_value } : AdvanceCamera).update =
          .ok { c with
                view_matrix := c.view_value
                combined_matrix := c.projection_matrix * c.view_value } :=
        adv_update_zero_speed hs hm hsh hne hb
      rcases ih with h | h
      all_goals right
      all_goals show (c.update_iter n).bind AdvanceCamera.update = _
      · rw [h, except_bind_ok, adv_update_zero_speed hs hm hsh hne hb]
      · rw [h, except_bind_ok, hfix]

/-- C10: on both the Basic and the Advanced camera, a camera whose
move_speed is zero and whose position differs from its goal keeps its
position unchanged and its moving flag raised through every number of
update() calls, and every update() call rebuilds (to the same value) the
view matrix derived from the unchanged position: the camera never reaches
its goal and the per-frame recompute never stops. -/
theorem C10_zero_speed_never_converges :
    (∀ (c : BaseCamera) (n : ℕ), c.move_speed = 0 → c.moving = true →
        c.position ≠ c.goal_position → ¬ c.view_bad →
        (c.update_iter n).map (fun d => (d.position, d.goal_position, d.moving)) =
            .ok (c.position, c.goal_position, true) ∧
          (c.update_iter (n + 1)).map (fun d => d.view_matrix) = .ok c.view_value) ∧
      (∀ (c : AdvanceCamera) (n : ℕ), c.move_speed = 0 → c.moving = true →
        c.shaking = false → c.position ≠ c.goal_position → ¬ c.view_bad →
        (c.update_iter n).map (fun d => (d.position, d.goal_position, d.moving)) =
            .ok (c.position, c.goal_position, true) ∧
          (c.update_iter (n + 1)).map (fun d => d.view_matrix) = .ok c.view_value) := by
  constructor
  · intro c n hs hm hne hb
    have hfix : ({ c with
        view_matrix := c.view_value
        combined_matrix := c.projection_matrix * c.view_value } : BaseCamera).update =
        .ok { c with
              view_matrix := c.view_value
              combined_matrix := c.projection_matrix * c.view_value } :=
      base_update_zero_speed hs hm hne hb
    constructor
    · rcases base_update_iter_zero_speed c hs hm hne hb n with h | h <;>
        rw [h] <;> simp [Except.map, hm]
    · show ((c.update_iter n).bind BaseCamera.update).map _ = _
      rcases base_update_iter_zero_speed c hs hm hne hb n with h | h
      · rw [h, except_bind_ok, base_update_zero_speed hs hm hne hb]
        rfl
      · rw [h, except_bind_ok, hfix]
        rfl
  · intro c n hs hm hsh hne hb
    have hfix : ({ c with
        view_matrix := c.view_value
        combined_matrix := c.projection_matrix * c.view_value } : AdvanceCamera).update =
        .ok { c with
              view_matrix := c.view_value
              combined_matrix := c.projection_matrix * c.view_value } :=
      adv_update_zero_speed hs hm hsh hne hb
    constructor
    · rcases adv_update_iter_zero_speed c hs hm hsh hne hb n with h | h <;>
        rw [h] <;> simp [Except.map, hm]
    · show ((c.update_iter n).bind AdvanceCamera.update).map _ = _
      rcases adv_update_iter_zero_speed c hs hm hsh hne hb n with h | h
      · rw [h, except_bind_ok, adv_update_zero_speed hs hm hsh hne hb]
        rfl
      · rw [h, except_bind_ok, hfix]
        rfl

/-- Witness for C10: the Basic camera after move_to((100, 0), 0), run for
three update() calls, still sits at the origin with the moving flag set. -/
theorem C10_zero_speed_never_converges_witness :
    ((baseCam800.move_to ⟨100, 0⟩ 0).update_iter 3).map
        (fun d => (d.position, d.goal_position, d.moving)) =
      .ok ((baseCam800.move_to ⟨100, 0⟩ 0).position,
        (baseCam800.move_to ⟨100, 0⟩ 0).goal_position, true) :=
  (C10_zero_speed_never_converges.1 (baseCam800.move_to ⟨100, 0⟩ 0) 3 rfl rfl
    (fun h => by
      have h2 := congrArg Vec2.x h
      norm_num [baseCam800, BaseCamera.move_to] at h2)
    (by norm_num [BaseCamera.view_bad, BaseCamera.viewport_width, BaseCamera.viewport_height,
      baseCam800, BaseCamera.move_to])).1




/-- C7 (amended): on the Basic camera, while moving with a speed in (0, 1],
each successful update() strictly decreases the distance from the position
to the (unchanged) goal, and with speed exactly 1 a single update() lands
exactly on the goal and clears the moving flag.  For speeds strictly below
1 exact equality is never reached under the real-number semantics of this
embedding (see the counterexample), so no bounded number of steps
suffices; the termination the spec describes for such speeds can only come
from floating-point rounding, which this model does not have. -/
theorem C7_movement_convergence :
    (∀ c c2 : BaseCamera, 0 < c.move_speed → c.move_speed ≤ 1 → c.moving = true →
        c.position ≠ c.goal_position → c.update = .ok c2 →
        c2.goal_position = c.goal_position ∧
          get_distance c2.position.x c2.position.y c2.goal_position.x c2.goal_position.y <
            get_distance c.position.x c.position.y c.goal_position.x c.goal_position.y) ∧
      (∀ c c2 : BaseCamera, c.move_speed = 1 → c.moving = true → c.update = .ok c2 →
        c2.position = c.goal_position ∧ c2.moving = false) := by
  constructor
  · intro c c2 h0 h1 hm hne hu
    unfold BaseCamera.update at hu
    dsimp only at hu
    split at hu
    · obtain rfl := base_set_view_matrix_ok hu
      refine ⟨rfl, ?_⟩
      unfold get_distance Vec2.lerp
      dsimp only
      have hD : 0 < (c.goal_position.x - c.position.x) ^ 2 +
          (c.goal_position.y - c.position.y) ^ 2 := by
        rcases show c.position.x ≠ c.goal_position.x ∨ c.position.y ≠ c.goal_position.y by
            by_contra hcon
            push_neg at hcon
            refine hne ?_
            have hx := hcon.1
            have hy := hcon.2
            calc c.position = ⟨c.position.x, c.position.y⟩ := rfl
              _ = ⟨c.goal_position.x, c.goal_position.y⟩ := by rw [hx, hy]
              _ = c.goal_position := rfl
          with h | h
        · have h2 : c.goal_position.x - c.position.x ≠ 0 := sub_ne_zero.mpr (Ne.symm h)
          have h3 := sq_nonneg (c.goal_position.y - c.position.y)
          have h4 : 0 < (c.goal_position.x - c.position.x) ^ 2 :=
            lt_of_le_of_ne (sq_nonneg _) (Ne.symm (pow_ne_zero 2 h2))
          linarith
        · have h2 : c.goal_position.y - c.position.y ≠ 0 := sub_ne_zero.mpr (Ne.symm h)
          have h3 := sq_nonneg (c.goal_position.x - c.position.x)
          have h4 : 0 < (c.goal_position.y - c.position.y) ^ 2 :=
            lt_of_le_of_ne (sq_nonneg _) (Ne.symm (pow_ne_zero 2 h2))
          linarith
      apply Real.sqrt_lt_sqrt (by positivity)
      have key : (c.goal_position.x - (c.position.x +
            c.move_speed * (c.goal_position.x - c.position.x))) ^ 2 +
          (c.goal_position.y - (c.position.y +
            c.move_speed * (c.goal_position.y - c.position.y))) ^ 2 =
          (1 - c.move_speed) ^ 2 * ((c.goal_position.x - c.position.x) ^ 2 +
            (c.goal_position.y - c.position.y) ^ 2) := by ring
      rw [key]
      have hlt : (1 - c.move_speed) ^ 2 < 1 := by nlinarith
      nlinarith
    · next h2 => exact absurd hm h2
  · intro c c2 hs hm hu
    unfold BaseCamera.update at hu
    dsimp only at hu
    split at hu
    · have hp : c.position.lerp c.goal_position c.move_speed = c.goal_position := by
        rw [hs]
        unfold Vec2.lerp
        have hx : c.position.x + 1 * (c.goal_position.x - c.position.x) =
            c.goal_position.x := by ring
        have hy : c.position.y + 1 * (c.goal_position.y - c.position.y) =
            c.goal_position.y := by ring
        calc (⟨c.position.x + 1 * (c.goal_position.x - c.position.x),
              c.position.y + 1 * (c.goal_position.y - c.position.y)⟩ : Vec2)
            = ⟨c.goal_position.x, c.goal_position.y⟩ := by rw [hx, hy]
          _ = c.goal_position := rfl
      rw [hp, if_pos rfl] at hu
      obtain rfl := base_set_view_matrix_ok hu
      exact ⟨rfl, rfl⟩
    · next h2 => exact absurd hm h2




/-- Basic camera after move_to((100, 0), 1/2) from the fresh 800 by 600
state: the concrete scenario of the movement-convergence property. -/
def baseCamC7 : BaseCamera := baseCam800.move_to ⟨100, 0⟩ (1 / 2)

lemma BaseCamera.update_moving_not_reached {c : BaseCamera} (hm : c.moving = true)
    (hpne : c.position.lerp c.goal_position c.move_speed ≠ c.goal_position)
    (hb : ¬ c.view_bad) :
    c.update = .ok { c with
      position := c.position.lerp c.goal_position c.move_speed
      view_matrix := ({ c with position := c.position.lerp c.goal_position c.move_speed }
        : BaseCamera).view_value
      combined_matrix := c.projection_matrix *
        ({ c with position := c.position.lerp c.goal_position c.move_speed }
          : BaseCamera).view_value } := by
  unfold BaseCamera.update
  dsimp only
  rw [hm, if_pos rfl, if_neg hpne, base_set_view_matrix_eq]
  split
  · next h2 => exact absurd h2 hb
  · rfl

lemma baseCamC7_iter (n : ℕ) :
    ∃ c : BaseCamera, baseCamC7.update_iter n = .ok c ∧
      c.position.x = 100 - 100 * (1 / 2) ^ n ∧ c.position.y = 0 ∧
      c.goal_position = ⟨100, 0⟩ ∧ c.move_speed = 1 / 2 ∧ c.moving = true ∧
      c.viewport = ⟨0, 0, 800, 600⟩ := by
  induction n with
  | zero =>
      refine ⟨baseCamC7, rfl, ?_, ?_, ?_, ?_, ?_, ?_⟩ <;>
        norm_num [baseCamC7, baseCam800, BaseCamera.move_to]
  | succ n ih =>
      obtain ⟨c, hit, hx, hy, hg, hs, hm, hv⟩ := ih
      have hq : (0 : ℝ) < (1 / 2 : ℝ) ^ n := by positivity
      have hbad : ¬ c.view_bad := by
        unfold BaseCamera.view_bad BaseCamera.viewport_width BaseCamera.viewport_height
        rw [hv]
        norm_num
      have hpne : c.position.lerp c.goal_position c.move_speed ≠ c.goal_position := by
        intro h
        have h2 := congrArg Vec2.x h
        unfold Vec2.lerp at h2
        dsimp only at h2
        rw [hx, hs, hg] at h2
        norm_num at h2
        nlinarith
      have hiter : baseCamC7.update_iter (n + 1) = .ok { c with
          position := c.position.lerp c.goal_position c.move_speed
          view_matrix := ({ c with position := c.position.lerp c.goal_position c.move_speed }
            : BaseCamera).view_value
          combined_matrix := c.projection_matrix *
            ({ c with position := c.position.lerp c.goal_position c.move_speed }
              : BaseCamera).view_value } := by
        show (baseCamC7.update_iter n).bind BaseCamera.update = _
        rw [hit, except_bind_ok, BaseCamera.update_moving_not_reached hm hpne hbad]
      refine ⟨_, hiter, ?_, ?_, hg, hs, hm, hv⟩
      · show (c.position.lerp c.goal_position c.move_speed).x = _
        unfold Vec2.lerp
        dsimp only
        rw [hx, hs, hg]
        rw [pow_succ]
        norm_num
        ring
      · show (c.position.lerp c.goal_position c.move_speed).y = 0
        unfold Vec2.lerp
        dsimp only
        rw [hy, hg]
        norm_num

/-- Counterexample for the bounded-step exact-equality part of C7: from
position (0, 0) with goal (100, 0) and speed 1/2, no number of update()
calls ever makes the position exactly equal to the goal (the distance is
100 halved each step, never zero). -/
theorem C7_never_exact_counterexample :
    ¬ ∃ (n : ℕ) (c : BaseCamera),
        baseCamC7.update_iter n = .ok c ∧ c.position = c.goal_position := by
  rintro ⟨n, c, hit, heq⟩
  obtain ⟨c2, hit2, hx, hy, hg, _, _, _⟩ := baseCamC7_iter n
  rw [hit] at hit2
  obtain rfl := Except.ok.inj hit2
  have h2 := congrArg Vec2.x heq
  rw [hx, hg] at h2
  norm_num at h2




/-- baseCamC7 after one update: halfway to the goal. -/
def baseCamC7u : BaseCamera :=
  { baseCamC7 with
    position := ⟨50, 0⟩
    view_matrix := (Mat4.fromTranslation ⟨1 / 8, 0, 0⟩)⁻¹
    combined_matrix := Mat4.orthoEntries 0 800 0 600 (-1) 1 *
      (Mat4.fromTranslation ⟨1 / 8, 0, 0⟩)⁻¹ }

lemma baseCamC7_update : baseCamC7.update = .ok baseCamC7u := by
  norm_num [BaseCamera.update, base_set_view_matrix_eq, BaseCamera.view_bad,
    BaseCamera.view_value, BaseCamera.viewport_width, BaseCamera.viewport_height,
    Vec2.lerp, Vec2.mk.injEq, baseCamC7, baseCamC7u, baseCam800, BaseCamera.move_to]

/-- Basic camera after move_to((100, 0), 1). -/
def baseCamC7b : BaseCamera := baseCam800.move_to ⟨100, 0⟩ 1

/-- baseCamC7b after one update: exactly at the goal, moving cleared. -/
def baseCamC7bu : BaseCamera :=
  { baseCamC7b with
    position := ⟨100, 0⟩
    moving := false
    view_matrix := (Mat4.fromTranslation ⟨1 / 4, 0, 0⟩)⁻¹
    combined_matrix := Mat4.orthoEntries 0 800 0 600 (-1) 1 *
      (Mat4.fromTranslation ⟨1 / 4, 0, 0⟩)⁻¹ }

lemma baseCamC7b_update : baseCamC7b.update = .ok baseCamC7bu := by
  norm_num [BaseCamera.update, base_set_view_matrix_eq, BaseCamera.view_bad,
    BaseCamera.view_value, BaseCamera.viewport_width, BaseCamera.viewport_height,
    Vec2.lerp, Vec2.mk.injEq, baseCamC7b, baseCamC7bu, baseCam800, BaseCamera.move_to]

/-- Witness for C7: one update on the concrete scenario move_to((100,0), 1/2)
from (0, 0) strictly decreases the distance to the goal, and one update on
the same scenario with speed 1 reaches the goal exactly and clears the
moving flag. -/
theorem C7_movement_convergence_witness :
    (get_distance baseCamC7u.position.x baseCamC7u.position.y
        baseCamC7u.goal_position.x baseCamC7u.goal_position.y <
      get_distance baseCamC7.position.x baseCamC7.position.y
        baseCamC7.goal_position.x baseCamC7.goal_position.y) ∧
      baseCamC7bu.position = baseCamC7b.goal_position ∧ baseCamC7bu.moving = false :=
  ⟨(C7_movement_convergence.1 baseCamC7 baseCamC7u
      (by norm_num [baseCamC7, baseCam800, BaseCamera.move_to])
      (by norm_num [baseCamC7, baseCam800, BaseCamera.move_to]) rfl
      (fun h => by
        have h2 := congrArg Vec2.x h
        norm_num [baseCamC7, baseCam800, BaseCamera.move_to] at h2)
      baseCamC7_update).2,
   C7_movement_convergence.2 baseCamC7b baseCamC7bu rfl rfl baseCamC7b_update⟩



/-! ### Claim C4: eager recomputation by setters -/



/-- All four cached matrices of an Advanced camera equal the values derived
from its current fields. -/
def AdvanceCamera.fresh (c : AdvanceCamera) : Prop :=
  c.projection_matrix = c.proj_value ∧ c.view_matrix = c.view_value ∧
    c.combined_matrix = c.projection_matrix * c.view_matrix ∧
    c.rotation_matrix = c.rot_value

/-- C4 (amended): construction and every explicit setter of the Advanced
camera (viewport, projection, zoom, near, far, rotation, anchor) leave all
cached matrices equal to the values derived from the newly set fields
(given that the matrices not depending on the set field were fresh before),
and the Basic camera projection setter leaves its projection and combined
matrices fresh; the Basic camera viewport setter, however, recomputes
nothing (see the counterexample). -/
theorem C4_eager_setter_recompute :
    (∀ (ww wh : ℝ) (vp : Option ViewportRect) (pr : Option ProjRect) (z r : ℝ)
        (a : Option (ℝ × ℝ)) (c : AdvanceCamera),
        AdvanceCamera.init ww wh vp pr z r a = .ok c → c.fresh) ∧
      (∀ (c c2 : AdvanceCamera) (v : Option ViewportRect), c.fresh →
        c.viewport_set v = .ok c2 → c2.fresh) ∧
      (∀ (c c2 : AdvanceCamera) (p : Option ProjRect), c.fresh →
        c.projection_set p = .ok c2 → c2.fresh) ∧
      (∀ (c c2 : AdvanceCamera) (z : ℝ), c.fresh → c.zoom_set z = .ok c2 → c2.fresh) ∧
      (∀ (c c2 : AdvanceCamera) (x : ℝ), c.fresh → c.near_set x = .ok c2 → c2.fresh) ∧
      (∀ (c c2 : AdvanceCamera) (x : ℝ), c.fresh → c.far_set x = .ok c2 → c2.fresh) ∧
      (∀ (c : AdvanceCamera) (r : ℝ), c.fresh → (c.rotation_set r).fresh) ∧
      (∀ (c : AdvanceCamera) (a : Option (ℝ × ℝ)), c.fresh → (c.anchor_set a).fresh) ∧
      (∀ (c c2 : BaseCamera) (p : ProjRect), c.projection_set p = .ok c2 →
        c2.projection_matrix = c2.proj_value ∧
          c2.combined_matrix = c2.projection_matrix * c2.view_matrix) := by
  refine ⟨?_, ?_, ?_, ?_, ?_, ?_, ?_, ?_, ?_⟩
  · intro ww wh vp pr z r a c h
    unfold AdvanceCamera.init at h
    dsimp only at h
    obtain ⟨c3, hb, hrot⟩ := except_map_ok_elim h
    obtain ⟨c1, hp1, hv1⟩ := except_bind_ok_elim hb
    rw [adv_set_projection_matrix_eq] at hp1
    split at hp1
    · cases hp1
    · obtain rfl := Except.ok.inj hp1
      obtain rfl := adv_set_view_matrix_ok hv1
      rw [← hrot, AdvanceCamera.set_rotation_matrix_eq]
      exact ⟨rfl, rfl, rfl, rfl⟩
  · intro c c2 v hf h
    unfold AdvanceCamera.viewport_set at h
    obtain ⟨c3, hv, hrot⟩ := except_map_ok_elim h
    obtain rfl := adv_set_view_matrix_ok hv
    rw [← hrot, AdvanceCamera.set_rotation_matrix_eq]
    exact ⟨hf.1, rfl, rfl, rfl⟩
  · intro c c2 p hf h
    unfold AdvanceCamera.projection_set at h
    rw [adv_set_projection_matrix_eq] at h
    split at h
    · cases h
    · obtain rfl := Except.ok.inj h
      exact ⟨rfl, hf.2.1, rfl, hf.2.2.2⟩
  · intro c c2 z hf h
    unfold AdvanceCamera.zoom_set at h
    obtain ⟨c3, hp1, hv1⟩ := except_bind_ok_elim h
    rw [adv_set_projection_matrix_eq] at hp1
    split at hp1
    · cases hp1
    · obtain rfl := Except.ok.inj hp1
      obtain rfl := adv_set_view_matrix_ok hv1
      exact ⟨rfl, rfl, rfl, hf.2.2.2⟩
  · intro c c2 x hf h
    unfold AdvanceCamera.near_set at h
    rw [adv_set_projection_matrix_eq] at h
    split at h
    · cases h
    · obtain rfl := Except.ok.inj h
      exact ⟨rfl, hf.2.1, rfl, hf.2.2.2⟩
  · intro c c2 x hf h
    unfold AdvanceCamera.far_set at h
    rw [adv_set_projection_matrix_eq] at h
    split at h
    · cases h
    · obtain rfl := Except.ok.inj h
      exact ⟨rfl, hf.2.1, rfl, hf.2.2.2⟩
  · intro c r hf
    exact ⟨hf.1, hf.2.1, hf.2.2.1, rfl⟩
  · intro c a hf
    exact ⟨hf.1, hf.2.1, hf.2.2.1, rfl⟩
  · intro c c2 p h
    unfold BaseCamera.projection_set at h
    rw [base_set_projection_matrix_eq] at h
    split at h
    · cases h
    · obtain rfl := Except.ok.inj h
      exact ⟨rfl, rfl⟩

/-- Witness for C4: the freshly constructed Advanced camera advCam800 has
all four cached matrices equal to their derived values. -/
theorem C4_eager_setter_recompute_witness : advCam800.fresh :=
  C4_eager_setter_recompute.1 800 600 none none 1 0 none advCam800 advCam800_init




lemma fromTranslation_mul (a b : Vec3) :
    Mat4.fromTranslation a * Mat4.fromTranslation b =
      Mat4.fromTranslation ⟨a.x + b.x, a.y + b.y, a.z + b.z⟩ := by
  ext i j
  fin_cases i <;> fin_cases j <;>
    simp [Mat4.fromTranslation, Matrix.mul_apply, Fin.sum_univ_four, Matrix.vecHead,
      Matrix.vecTail] <;> ring

lemma fromTranslation_zero : Mat4.fromTranslation ⟨0, 0, 0⟩ = 1 := by
  ext i j
  fin_cases i <;> fin_cases j <;>
    simp [Mat4.fromTranslation, Matrix.one_apply, Matrix.vecHead, Matrix.vecTail]

lemma fromTranslation_inv (v : Vec3) :
    (Mat4.fromTranslation v)⁻¹ = Mat4.fromTranslation v.neg := by
  apply Matrix.inv_eq_right_inv
  rw [fromTranslation_mul]
  rw [show (⟨v.x + v.neg.x, v.y + v.neg.y, v.z + v.neg.z⟩ : Vec3) = ⟨0, 0, 0⟩ by
    simp [Vec3.neg]]
  exact fromTranslation_zero

lemma fromTranslation_injective_x {u w : Vec3}
    (h : Mat4.fromTranslation u = Mat4.fromTranslation w) : u.x = w.x := by
  have h2 := congrFun (congrFun h 0) 3
  simpa [Mat4.fromTranslation, Matrix.vecHead, Matrix.vecTail] using h2

/-- The Basic camera after an instant move to (10, 0): position (10, 0),
matrices freshly derived, moving cleared. -/
def baseCamC4 : BaseCamera :=
  { baseCam800.move_to ⟨10, 0⟩ 1 with
    position := ⟨10, 0⟩
    moving := false
    view_matrix := (Mat4.fromTranslation ⟨1 / 40, 0, 0⟩)⁻¹
    combined_matrix := Mat4.orthoEntries 0 800 0 600 (-1) 1 *
      (Mat4.fromTranslation ⟨1 / 40, 0, 0⟩)⁻¹ }

lemma baseCamC4_eval : (baseCam800.move_to ⟨10, 0⟩ 1).update = .ok baseCamC4 := by
  norm_num [BaseCamera.update, base_set_view_matrix_eq, BaseCamera.view_bad,
    BaseCamera.view_value, BaseCamera.viewport_width, BaseCamera.viewport_height,
    Vec2.lerp, Vec2.mk.injEq, baseCamC4, baseCam800, BaseCamera.move_to]

/-- Counterexample for C4 as stated: on the Basic camera standing at
(10, 0), the viewport setter (a bare assignment) leaves the cached view
matrix untouched, so after assigning the halved viewport (0, 0, 400, 600)
the cached view matrix (translation by 1/40 inverted) differs from the view
matrix derived from the new viewport (translation by 1/20 inverted): the
setter does not recompute the dependent matrix. -/
theorem C4_base_viewport_counterexample :
    (baseCam800.move_to ⟨10, 0⟩ 1).update = .ok baseCamC4 ∧
      (baseCamC4.viewport_set ⟨0, 0, 400, 600⟩).view_matrix ≠
        (baseCamC4.viewport_set ⟨0, 0, 400, 600⟩).view_value := by
  refine ⟨baseCamC4_eval, ?_⟩
  intro h
  rw [show (baseCamC4.viewport_set ⟨0, 0, 400, 600⟩).view_matrix =
      (Mat4.fromTranslation ⟨1 / 40, 0, 0⟩)⁻¹ from rfl,
    show (baseCamC4.viewport_set ⟨0, 0, 400, 600⟩).view_value =
      (Mat4.fromTranslation ⟨10 / (400 / 2), 0 / (600 / 2), 0⟩)⁻¹ from rfl,
    fromTranslation_inv, fromTranslation_inv] at h
  have h2 := fromTranslation_injective_x h
  norm_num [Vec3.neg] at h2


end ArcadeCamera
